import Mathlib

/-!
# Verification of the startup-research pipeline

A shallow embedding of the `anantg010/startup` repository (a LangGraph
pipeline that researches a startup, asks an LLM for a structured profile
and a weighted scorecard, renders a PDF and pushes results to a platform
API), together with theorems settling the specification claims.

Conventions of the embedding:
* Python `dict`s coming from JSON are `Json` values; a JSON object keeps
  the (insertion-ordered) list of key/value pairs, and Python dict
  assignment (`d[k] = v`) is `Json.dictSet` (an existing key keeps its
  position, a new key is appended).
* Python floats are modelled as rationals (`Rat`); the claims in scope
  compare against tolerance `1e-6`, and all numbers involved are exactly
  representable, so no rounding behaviour is lost.
* Fallible Python code (`raise` / `try ... except`) is `Except String`
  with the exception's `str(e)` as the payload.
* External collaborators (HTTP services, the LLM, the PDF renderer,
  `json.loads`, the filesystem) are oracle fields of an `Env` record;
  the pipeline/stage logic itself is translated from the source.
* A pydantic model is a structure with exactly the fields the class
  declares; keyword arguments the constructor receives for undeclared
  fields are ignored (pydantic's default `extra='ignore'`), and reading
  an undeclared attribute raises `AttributeError` (pydantic v2
  `BaseModel.__getattr__`).
-/

namespace Startup

/-! ## JSON values and Python-dict semantics -/

/-- A parsed JSON value, as produced by Python's `json.loads`.  Objects
keep the insertion-ordered association list of a Python `dict`. -/
inductive Json where
  | null
  | bool (b : Bool)
  | num (q : Rat)
  | str (s : String)
  | arr (elts : List Json)
  | obj (entries : List (String × Json))

namespace Json

/-- Python truthiness of a JSON value (`bool(x)`): `None`, `False`, `0`,
`""`, `[]` and `{}` are falsy, everything else is truthy. -/
def truthy : Json → Bool
  | .null => false
  | .bool b => b
  | .num q => q != 0
  | .str s => s ≠ ""
  | .arr elts => !elts.isEmpty
  | .obj entries => !entries.isEmpty

/-- `d.get(k)` on a Python dict: the value at the first matching key. -/
def get? (entries : List (String × Json)) (k : String) : Option Json :=
  (entries.find? (fun kv => kv.1 = k)).map (·.2)

/-- `d.get(k, dflt)` on a Python dict. -/
def getD (entries : List (String × Json)) (k : String) (dflt : Json) : Json :=
  (get? entries k).getD dflt

/-- `d[k] = v` on a Python dict: an existing key keeps its position and
takes the new value, a new key is appended at the end. -/
def dictSet (entries : List (String × Json)) (k : String) (v : Json) :
    List (String × Json) :=
  if entries.any (fun kv => kv.1 = k) then
    entries.map (fun kv => if kv.1 = k then (k, v) else kv)
  else
    entries ++ [(k, v)]

end Json

/-! ## String helpers mirroring the Python string operations used -/

/-- Boolean prefix test on character lists. -/
def charsLeadMatch : List Char → List Char → Bool
  | [], _ => true
  | _ :: _, [] => false
  | p :: ps, c :: cs => p = c && charsLeadMatch ps cs

/-- Boolean infix test on character lists. -/
def charsContain (pattern : List Char) : List Char → Bool
  | [] => charsLeadMatch pattern []
  | c :: cs => charsLeadMatch pattern (c :: cs) || charsContain pattern cs

/-- `pattern in s` (substring containment). -/
def strContains (s pattern : String) : Bool :=
  charsContain pattern.toList s.toList

/-- `s.endswith(pattern)`. -/
def strEndsWith (s pattern : String) : Bool :=
  charsLeadMatch pattern.toList.reverse s.toList.reverse

/-- `s.upper()` (the keys in scope are ASCII). -/
def strUpper (s : String) : String :=
  String.mk (s.toList.map Char.toUpper)

/-- Truthiness of an optional Python string: `None` and `""` are falsy. -/
def strOptTruthy : Option String → Bool
  | none => false
  | some s => s ≠ ""

/-! ## `flatten_nested_json` (src/nodes/llm_structure.py lines 405-478)

The LLM-output reconciliation: one level of section-style nesting is
flattened by hoisting the children of dict values whose key looks like a
section header. -/

/-- Normalisation applied to a key of the LLM response before the section
check: `key.upper().replace(" ", "_").replace("&", "").replace("/", "")
.replace("-", "_")` (llm_structure.py line 439). -/
def normalizeKey (s : String) : String :=
  String.mk <| (s.toList.map Char.toUpper).filterMap fun c =>
    if c = '&' ∨ c = '/' then none
    else if c = ' ' ∨ c = '-' then some '_'
    else some c

/-- Normalisation applied to the `section_mappings` keys:
`s.upper().replace(" ", "_").replace("&", "").replace("/", "")`
(llm_structure.py line 442; note: no `-` replacement here). -/
def normalizeSectionName (s : String) : String :=
  String.mk <| (s.toList.map Char.toUpper).filterMap fun c =>
    if c = '&' ∨ c = '/' then none
    else if c = ' ' then some '_'
    else some c

/-- The keys of the `section_mappings` dict (llm_structure.py lines
413-434; the dict literal repeats `"TRACTION & METRICS"` and
`"ADDITIONAL_INFO"`, which a Python dict collapses). -/
def sectionMappingKeys : List String :=
  ["BASIC_INFORMATION", "THESIS_CLASSIFICATION", "CEO/FOUNDER_INFORMATION",
   "DETAILED_FOUNDER_PROFILES", "COMPANY_DETAILS", "PRODUCT & BUSINESS",
   "FINANCIAL_METRICS", "TRACTION & METRICS", "MARKET_ANALYSIS",
   "ADDITIONAL_INFO", "INVESTMENT_ANALYSIS", "AI_SCORECARD"]

/-- `section_keys` of llm_structure.py line 442. -/
def sectionKeys : List String :=
  sectionMappingKeys.map normalizeSectionName

/-- The `is_nested_section` heuristic (llm_structure.py lines 446-467),
applied to the already-normalised key. -/
def isNestedSection (n : String) : Bool :=
  strEndsWith n "_INFORMATION" ||
  strEndsWith n "_CLASSIFICATION" ||
  strEndsWith n "_DETAILS" ||
  strEndsWith n "_PROFILES" ||
  strEndsWith n "_BUSINESS" ||
  strEndsWith n "_METRICS" ||
  strEndsWith n "_ANALYSIS" ||
  strEndsWith n "_INFO" ||
  strEndsWith n "_SCORECARD" ||
  strContains n "FOUNDER" ||
  strContains n "CEO" ||
  strContains n "PRODUCT" ||
  strContains n "FINANCIAL" ||
  strContains n "TRACTION" ||
  strContains n "MARKET" ||
  strContains n "INVESTMENT" ||
  strContains n "AI_SCORECARD" ||
  strContains n "COMPANY" ||
  strContains n "THESIS" ||
  strContains n "BASIC"

/-- Whether the key of a dict-valued entry makes it a section to be
flattened: `is_section or is_nested_section` (llm_structure.py line 469). -/
def isSectionKey (k : String) : Bool :=
  let n := normalizeKey k
  sectionKeys.contains n || isNestedSection n

/-- One entry of the outer dict is hoisted iff its value is a dict and its
key matches the section heuristics. -/
def isSectionEntry (k : String) : Json → Bool
  | .obj _ => isSectionKey k
  | _ => false

/-- The loop body of `flatten_nested_json` (llm_structure.py lines
436-476) as a fold step over the accumulated `flattened` dict. -/
def flattenStep (acc : List (String × Json)) (kv : String × Json) :
    List (String × Json) :=
  match kv.2 with
  | .obj sub =>
      if isSectionKey kv.1 then
        sub.foldl (fun a skv => Json.dictSet a skv.1 skv.2) acc
      else
        Json.dictSet acc kv.1 kv.2
  | v => Json.dictSet acc kv.1 v

/-- `flatten_nested_json` (llm_structure.py lines 405-478): a non-dict is
returned unchanged; a dict is rebuilt, hoisting the children of
section-like dict values to the top level. -/
def flatten_nested_json : Json → Json
  | .obj entries => .obj (entries.foldl flattenStep [])
  | j => j

/-! ## The record store (src/state.py)

Each pydantic model becomes a structure with exactly the declared fields
and the declared defaults.  `Optional[X] = None` becomes `Option X := none`,
`str = ""` becomes `String := ""`, floats become `Rat`, `Dict` fields hold
`Json` object entries, and `datetime` is an abstract tick (`Nat`). -/

/-- `ExtractedPitchDeck` (state.py lines 5-8). -/
structure ExtractedPitchDeck where
  raw_text : String := ""
  key_points : List String := []

/-- `ScrapedWebsiteData` (state.py lines 11-16). -/
structure ScrapedWebsiteData where
  page_title : String := ""
  page_description : String := ""
  main_content : String := ""
  technologies_detected : List String := []

/-- `SerpAPIResults` (state.py lines 19-23). -/
structure SerpAPIResults where
  search_query : String := ""
  search_results : List (String × Json) := []
  news_articles : List Json := []

/-- `RawGatheringData` (state.py lines 26-30).  These three are the only
attributes the class declares; in particular there is no `tavily_report`
and no `tavily_data`. -/
structure RawGatheringData where
  pitch_deck_extracted : Option ExtractedPitchDeck := none
  website_scraped : Option ScrapedWebsiteData := none
  search_results : Option SerpAPIResults := none

/-- `FounderProfile` (state.py lines 35-45). -/
structure FounderProfile where
  name : String := ""
  role : String := ""
  linkedin_url : String := ""
  education : List String := []
  previous_companies : List String := []
  previous_exits : List String := []
  years_experience : Int := 0
  domain_expertise : String := ""
  notable_achievements : List String := []

/-- `ScoreDetail` (state.py lines 50-57). -/
structure ScoreDetail where
  score : Rat := 0
  max_score : Rat := 10
  weight : Rat := 0
  justification : String := ""
  strengths : List String := []
  weaknesses : List String := []

/-- `AIScorecard` (state.py lines 60-82).  `investment_recommendation`
is a plain `str` field; the `json_schema_extra` enum is documentation
only and pydantic does not enforce it. -/
structure AIScorecard where
  founders_score : ScoreDetail := {}
  market_score : ScoreDetail := {}
  product_score : ScoreDetail := {}
  traction_score : ScoreDetail := {}
  team_score : ScoreDetail := {}
  financials_score : ScoreDetail := {}
  competition_score : ScoreDetail := {}
  overall_score : Rat := 0
  investment_recommendation : String := ""
  investment_summary : String := ""
  key_risks : List String := []
  key_opportunities : List String := []

/-- `StartupData` (state.py lines 87-103). -/
structure StartupData where
  name : String
  legal_name : Option String := none
  industry : Option String := none
  description : Option String := none
  email : Option String := none
  website : Option String := none
  founders : Option String := none
  stage : Option String := none
  team_size : Option Int := none
  founded_year : Option Int := none
  location : Option String := none
  ceo_linkedin_url : Option String := none

/-- `ResearchFindings` (state.py lines 108-227). -/
structure ResearchFindings where
  name : String := ""
  legal_name : String := ""
  description : String := ""
  location : String := ""
  website : String := ""
  company_email : Option String := none
  company_phone : Option String := none
  industry : String := ""
  startup_industry_domain : String := ""
  thesis_name : String := "OTHERS"
  startup_stage : String := ""
  ceo_name : String := ""
  ceo_email : String := ""
  ceo_phone : String := ""
  ceo_linkedin_url : String := ""
  company_goal : String := ""
  employee_count : Int := 0
  funding_raised : Option Rat := none
  funding_ask_amount : Option Rat := none
  company_info : List (String × Json) := []
  market_analysis : String := ""
  team_insights : String := ""
  competitive_landscape : String := ""
  funding_info : Option Json := none
  news_mentions : List String := []
  social_presence : Option Json := none
  technology_stack : Option String := none
  customer_base : Option String := none
  founders : List FounderProfile := []
  product_description : String := ""
  unique_value_proposition : String := ""
  technology_moat : String := ""
  business_model_details : String := ""
  revenue_model : String := ""
  pricing_strategy : String := ""
  current_mrr : Option Rat := none
  current_arr : Option Rat := none
  yoy_growth_rate : Option Rat := none
  customer_acquisition_cost : Option Rat := none
  lifetime_value : Option Rat := none
  burn_rate : Option Rat := none
  runway_months : Option Int := none
  key_metrics : List (String × Json) := []
  total_customers : Option Int := none
  active_users : Option Int := none
  retention_rate : Option Rat := none
  tam : Option Rat := none
  sam : Option Rat := none
  som : Option Rat := none
  market_growth_rate : Option Rat := none
  partnerships : List String := []
  awards_recognition : List String := []
  investment_highlights : List String := []
  risk_factors : List String := []
  ai_scorecard : Option AIScorecard := none
  known_competitors : List String := []

/-- `Competitor` (state.py lines 230-241). -/
structure Competitor where
  name : String := ""
  founded_year : Option Int := none
  headquarters : String := ""
  funding_raised : Option Rat := none
  current_valuation : Option Rat := none
  revenue : Option Rat := none
  business_model : String := ""
  focus_market : String := ""
  traction : String := ""
  similarities : String := ""

/-- `CompetitorAnalysis` (state.py lines 244-250).  These five fields are
the only ones the class declares; it has no `tam`, `sam`, `som` or
`market_data_explanation` field. -/
structure CompetitorAnalysis where
  startup_name : String := ""
  competitors : List Competitor := []
  market_overview : String := ""
  competitive_advantages : String := ""
  market_threats : String := ""

/-- `GraphState` (state.py lines 255-291), the record threaded through
the workflow. -/
structure GraphState where
  startup_data : StartupData
  pitch_deck_text : Option String := none
  pitch_deck_url : Option String := none
  pitch_deck_file_path : Option String := none
  raw_gathering_data : Option RawGatheringData := none
  research_findings : Option ResearchFindings := none
  structured_data : Option Json := none
  status : String := "initialized"
  errors : List String := []
  started_at : Nat := 0
  completed_at : Option Nat := none
  competitor_analysis : Option CompetitorAnalysis := none
  thesis_pdf_path : Option String := none
  startup_id : Option String := none
  application_id : Option String := none

/-! ## The stage contract and LangGraph's merge semantics

A node returns a Python dict of channel updates.  We record, for each
`GraphState` channel a node ever writes, whether the key is present and
with which value.  Keys some nodes return that are *not* channels of
`GraphState` (`api_response`, `api_response_app`, `upload_response`,
`pitch_deck_upload_response`) have no declared channel and are outside
the record model.

None of the `GraphState` fields is declared with an `Annotated` reducer,
so every channel is a LangGraph `LastValue` channel: a key present in a
node's update *replaces* the channel's value (this is the merge the
engine applies between stages); keys absent are untouched. -/

/-- A partial update returned by a node. -/
structure NodeUpdate where
  status : Option String := none
  errors : Option (List String) := none
  raw_gathering_data : Option (Option RawGatheringData) := none
  research_findings : Option (Option ResearchFindings) := none
  competitor_analysis : Option (Option CompetitorAnalysis) := none
  thesis_pdf_path : Option (Option String) := none
  startup_id : Option (Option String) := none
  application_id : Option (Option String) := none

/-- LangGraph's application of a node's partial update to the state:
each present key overwrites the corresponding channel (`LastValue`),
absent keys leave the channel untouched. -/
def applyUpdate (s : GraphState) (u : NodeUpdate) : GraphState :=
  { s with
    status := u.status.getD s.status
    errors := u.errors.getD s.errors
    raw_gathering_data := u.raw_gathering_data.getD s.raw_gathering_data
    research_findings := u.research_findings.getD s.research_findings
    competitor_analysis := u.competitor_analysis.getD s.competitor_analysis
    thesis_pdf_path := u.thesis_pdf_path.getD s.thesis_pdf_path
    startup_id := u.startup_id.getD s.startup_id
    application_id := u.application_id.getD s.application_id }

/-! ## Python coercions used when building pydantic objects from JSON -/

/-- `a or b` on JSON values (used for patterns like `d.get("x") or ""`). -/
def pyOr (a b : Json) : Json :=
  if a.truthy then a else b

/-- Parse a run of ASCII digits as a natural number. -/
def digitsVal : List Char → Option Nat
  | [] => none
  | cs =>
    cs.foldl (fun acc c =>
      acc.bind fun n => if c.isDigit then some (n * 10 + (c.toNat - 48)) else none)
      (some 0)

/-- Split off an optional leading sign, returning `(negative, rest)`. -/
def splitSign : List Char → Bool × List Char
  | '-' :: cs => (true, cs)
  | '+' :: cs => (false, cs)
  | cs => (false, cs)

/-- Parse the mantissa `digits[.digits]` of a Python float literal. -/
def parseMantissa (cs : List Char) : Option Rat :=
  match cs.splitOn '.' with
  | [intPart] => (digitsVal intPart).map fun n => (n : Rat)
  | [intPart, fracPart] =>
    match intPart, fracPart with
    | [], [] => none
    | _, _ =>
      let ip := if intPart.isEmpty then some 0 else digitsVal intPart
      let fp := if fracPart.isEmpty then some 0 else digitsVal fracPart
      ip.bind fun i => fp.map fun f =>
        (i : Rat) + (f : Rat) / ((10 : Rat) ^ fracPart.length)
  | _ => none

/-- Parse a finite Python float literal `[sign]digits[.digits][e[sign]digits]`
as a rational.  (`inf`/`nan` literals have no rational value and are not
modelled; no claim in scope touches them.) -/
def parsePyFloat (s : String) : Option Rat :=
  let cs := s.toList
  let (neg, cs) := splitSign cs
  let withMant : List Char → List Char → Option Rat := fun mant ex =>
    (parseMantissa mant).bind fun m =>
      let (eneg, ecs) := splitSign ex
      (digitsVal ecs).map fun e =>
        let scaled := if eneg then m / ((10 : Rat) ^ e) else m * ((10 : Rat) ^ e)
        if neg then -scaled else scaled
  match cs.splitOnP (fun c => c = 'e' ∨ c = 'E') with
  | [mant] => (parseMantissa mant).map fun m => if neg then -m else m
  | [mant, ex] => withMant mant ex
  | _ => none

/-- Python `float(x)` on a JSON value.  Strings parse as decimal literals;
`None`, lists and dicts raise `TypeError`. -/
def pyFloat : Json → Except String Rat
  | .num q => .ok q
  | .bool b => .ok (if b then 1 else 0)
  | .str s =>
    match parsePyFloat s with
    | some q => .ok q
    | none => .error ("could not convert string to float: '" ++ s ++ "'")
  | .null => .error "float() argument must be a string or a real number, not 'NoneType'"
  | .arr _ => .error "float() argument must be a string or a real number, not 'list'"
  | .obj _ => .error "float() argument must be a string or a real number, not 'dict'"

/-- Python `int(x)` on a JSON value: numbers truncate toward zero, strings
must be integer literals, other types raise. -/
def pyInt : Json → Except String Int
  | .num q => .ok (if 0 ≤ q then q.floor else q.ceil)
  | .bool b => .ok (if b then 1 else 0)
  | .str s =>
    let (neg, cs) := splitSign s.toList
    match digitsVal cs with
    | some n => .ok (if neg then -(n : Int) else (n : Int))
    | none => .error ("invalid literal for int() with base 10: '" ++ s ++ "'")
  | .null => .error "int() argument must be a string, a bytes-like object or a real number, not 'NoneType'"
  | .arr _ => .error "int() argument must be a string, a bytes-like object or a real number, not 'list'"
  | .obj _ => .error "int() argument must be a string, a bytes-like object or a real number, not 'dict'"

/-- Validation of a pydantic `str` field (pydantic v2 does not coerce
numbers to strings). -/
def asStr : Json → Except String String
  | .str s => .ok s
  | _ => .error "Input should be a valid string"

/-- Validation of a pydantic `List[str]` field from a JSON value that the
caller has already guarded with `isinstance(x, list)`; a non-list input
was replaced by `[]` at the call site. -/
def asStrListIfList : Option Json → Except String (List String)
  | some (.arr xs) => xs.mapM asStr
  | _ => .ok []

/-! ## The AI scorecard construction (src/nodes/llm_structure.py) -/

/-- `create_score_detail(data, weight)` (llm_structure.py lines 546-556):
a dict input populates the detail (its `score` through `float`), anything
else gives the zero detail; in both branches the `weight` is the constant
the caller passes. -/
def create_score_detail (data : Option Json) (weight : Rat) :
    Except String ScoreDetail :=
  match data with
  | some (.obj entries) => do
    let score ← pyFloat (Json.getD entries "score" (.num 0))
    let justification ← asStr (Json.getD entries "justification" (.str ""))
    let strengths ← asStrListIfList (Json.get? entries "strengths")
    let weaknesses ← asStrListIfList (Json.get? entries "weaknesses")
    pure { score := score, max_score := 10, weight := weight,
           justification := justification, strengths := strengths,
           weaknesses := weaknesses }
  | _ => .ok { score := 0, weight := weight }

/-- Selection of the scorecard source dict (llm_structure.py lines
532-544): prefer flattened top-level scorecard fields, then a nested
`ai_scorecard` dict, else an empty dict. -/
def selectScorecardData (structured : List (String × Json)) :
    List (String × Json) :=
  let sc0 := pyOr (Json.getD structured "ai_scorecard" .null) (.obj structured)
  if (Json.getD structured "founders_score" .null).truthy then structured
  else
    match sc0 with
    | .obj sub =>
      if (Json.getD sub "founders_score" .null).truthy then sub else []
    | _ => []

/-- The `AIScorecard(...)` construction of the structuring stage
(llm_structure.py lines 558-571).  The six category weights are the
literals `0.25/0.20/0.15/0.20/0.10/0.10` (competition `0.10`);
`overall_score` and `investment_recommendation` are taken from the LLM
output (defaults `0` and `"HOLD"`), not computed. -/
def buildAIScorecard (structured : List (String × Json)) :
    Except String AIScorecard := do
  let sd := selectScorecardData structured
  let foundersScore ← create_score_detail (Json.get? sd "founders_score") 0.25
  let marketScore ← create_score_detail (Json.get? sd "market_score") 0.20
  let productScore ← create_score_detail (Json.get? sd "product_score") 0.15
  let tractionScore ← create_score_detail (Json.get? sd "traction_score") 0.20
  let teamScore ← create_score_detail (Json.get? sd "team_score") 0.10
  let financialsScore ← create_score_detail (Json.get? sd "financials_score") 0.10
  let competitionScore ← create_score_detail (Json.get? sd "competition_score") 0.10
  let overall ← pyFloat (Json.getD sd "overall_score" (.num 0))
  let recommendation ← asStr (Json.getD sd "investment_recommendation" (.str "HOLD"))
  let summary ← asStr (Json.getD sd "investment_summary" (.str ""))
  let keyRisks ← asStrListIfList (Json.get? sd "key_risks")
  let keyOpportunities ← asStrListIfList (Json.get? sd "key_opportunities")
  pure { founders_score := foundersScore, market_score := marketScore,
         product_score := productScore, traction_score := tractionScore,
         team_score := teamScore, financials_score := financialsScore,
         competition_score := competitionScore, overall_score := overall,
         investment_recommendation := recommendation,
         investment_summary := summary, key_risks := keyRisks,
         key_opportunities := keyOpportunities }

/-- The recommendation bands as the prompt states them (llm_structure.py
lines 322-326): `STRONG_BUY` if `>= 8.0`, `BUY` if `>= 6.5`, `HOLD` if
`>= 5.0`, `PASS` if `< 5.0`.  These bands appear only in the prompt text
sent to the LLM; the stage never evaluates them itself. -/
def promptRecommendationBand (q : Rat) : String :=
  if 8 ≤ q then "STRONG_BUY"
  else if 6.5 ≤ q then "BUY"
  else if 5 ≤ q then "HOLD"
  else "PASS"

/-- The weighted sum of the six category scores named by the claim
(founders, market, product, traction, team, financials), using the
scorecard's stored weights. -/
def sixCategoryWeightedSum (sc : AIScorecard) : Rat :=
  sc.founders_score.score * sc.founders_score.weight +
  sc.market_score.score * sc.market_score.weight +
  sc.product_score.score * sc.product_score.weight +
  sc.traction_score.score * sc.traction_score.weight +
  sc.team_score.score * sc.team_score.weight +
  sc.financials_score.score * sc.financials_score.weight

/-! ## External collaborators

Each collaborator the stages call (LLM provider, search APIs, website
scraper, PDF extraction/rendering, platform backend, the filesystem and
`json.loads`) is an oracle field of `Env`.  An `Except.error e` models
the call raising an exception whose `str` is `e`; the stage-side handling
of the results is translated from the node sources. -/

/-- Result dict of `PDFParser.extract_text_from_path`. -/
structure ExtractResult where
  success : Bool := false
  full_text : String := ""
  error : String := ""

/-- Result dict of `WebsiteScraper.scrape_website`. -/
structure ScrapeResult where
  success : Bool := false
  error : String := ""
  title : String := ""
  description : String := ""
  main_text : String := ""
  links : List String := []

/-- One search hit (`{title, link, snippet}`). -/
structure SearchItem where
  title : String := ""
  link : String := ""
  snippet : String := ""

/-- One category of `SerpAPISearch.search_startup`'s `searches` dict. -/
structure CategoryResult where
  success : Bool := false
  results : List SearchItem := []

/-- Result dict of `SerpAPISearch.search_startup`. -/
structure SerpOutcome where
  success : Bool := false
  error : String := ""
  searches : List (String × CategoryResult) := []
  news : CategoryResult := {}

/-- An HTTP response as the platform-backend nodes consume it:
status code, raw text, and the result of `response.json()` (which can
itself raise). -/
structure ApiResponse where
  status_code : Nat := 0
  text : String := ""
  jsonBody : Except String Json := .error "Expecting value: line 1 column 1 (char 0)"

/-- The collaborator environment of one pipeline run. -/
structure Env where
  /-- `json.loads`; `none` models `json.JSONDecodeError`. -/
  jsonLoads : String → Option Json
  /-- The LLM call of the structuring stage (prompt → response text). -/
  llmComplete : String → Except String String
  /-- The LLM call of the competitor stage. -/
  llmCompetitors : String → Except String String
  /-- Downloading the pitch deck URL to the temp file: `True` iff the
  request succeeded with status 200 (parse_pitch_deck.py lines 50-66;
  exceptions there are caught and reported as failure). -/
  downloadPitchDeck : String → Bool
  /-- `PDFParser.extract_text_from_path` on the downloaded file. -/
  extractTextFromPath : String → ExtractResult
  /-- `PDFParser.extract_key_phrases(text, num_phrases=15)` (the Document
  Extractor collaborator). -/
  keyPhrases : String → List String
  /-- `WebsiteScraper.scrape_website(url)`. -/
  scrape : String → Except String ScrapeResult
  /-- `SerpAPISearch.search_startup(startup_name, industry)`. -/
  serp : String → Option String → Except String SerpOutcome
  /-- The ReportLab thesis rendering (investment_thesis.py lines 250-963,
  the Report Renderer collaborator): returns the written PDF path. -/
  renderThesisPdf : ResearchFindings → Option CompetitorAnalysis → StartupData →
    Except String String
  /-- POST `/v1/api/startup`. -/
  createStartup : Except String ApiResponse
  /-- POST `/v1/api/startup-application`. -/
  createApplication : Except String ApiResponse
  /-- POST `/v1/api/ai-score` (includes opening the PDF file). -/
  uploadScore : Except String ApiResponse
  /-- POST `/v1/api/n8n/startup-document`. -/
  uploadDoc : Except String ApiResponse
  /-- `os.path.exists`. -/
  fileExists : String → Bool

/-! ## The rest of the structuring stage (src/nodes/llm_structure.py) -/

mutual

/-- Rendering worker for Python `str(x)` on a JSON value: the flag says
whether we are inside a container (where Python uses `repr`, quoting
strings).  Our `num` conflates ints and floats, so numeral rendering is
approximate; no claim in scope depends on these strings. -/
def pyStrAux : Bool → Json → String
  | _, .null => "None"
  | _, .bool b => if b then "True" else "False"
  | _, .num q => if q.den = 1 then toString q.num else toString q
  | inContainer, .str s => if inContainer then "'" ++ s ++ "'" else s
  | _, .arr xs => "[" ++ String.intercalate ", " (pyStrList xs) ++ "]"
  | _, .obj entries =>
    "\x7b" ++ String.intercalate ", " (pyStrEntries entries) ++ "\x7d"

/-- Render the elements of a list. -/
def pyStrList : List Json → List String
  | [] => []
  | x :: xs => pyStrAux true x :: pyStrList xs

/-- Render the entries of a dict. -/
def pyStrEntries : List (String × Json) → List String
  | [] => []
  | (k, v) :: rest => ("'" ++ k ++ "': " ++ pyStrAux true v) :: pyStrEntries rest

end

/-- Approximate Python `str(x)` rendering of a JSON value at top level. -/
def pyStr (v : Json) : String :=
  pyStrAux false v

/-- `_extract_text_from_field` (llm_structure.py lines 8-50).  The
embedded-JSON-string case re-parses through `json.loads` and recurses;
`fuel` bounds that non-structural recursion (Python terminates because
each parse strictly shrinks the text). -/
def extractTextFromField (loads : String → Option Json) :
    Nat → Json → String
  | _, .null => ""
  | fuel, .str s =>
    if s.trim.startsWith "\x7b" then
      match loads s with
      | some parsed =>
        match fuel with
        | 0 => s
        | fuel' + 1 => extractTextFromField loads fuel' parsed
      | none => s
    else s
  | _, .obj entries =>
    let commonKeys := ["text", "content", "description", "summary", "analysis",
                       "market_analysis", "competitive_landscape", "team_insights"]
    let parts := commonKeys.filterMap fun k =>
      match Json.get? entries k with
      | some v => if v.truthy then some (pyStr v) else none
      | none => none
    let parts :=
      if parts.isEmpty then
        entries.filterMap fun kv =>
          match kv.2 with
          | .str s =>
            if s ≠ "" ∧ ¬ ["tam", "sam", "som", "market_growth_rate"].contains kv.1 then
              some s
            else none
          | _ => none
      else parts
    String.intercalate " " parts
  | _, .arr xs => String.intercalate ", " ((xs.filter Json.truthy).map pyStr)
  | _, v => if v.truthy then pyStr v else ""

/-- Index of the first occurrence of a character. -/
def charIndex : List Char → Char → Option Nat
  | [], _ => none
  | c :: cs, t => if c = t then some 0 else (charIndex cs t).map (· + 1)

/-- `llm_output.find('{')`. -/
def strFindBrace (s : String) : Option Nat :=
  charIndex s.toList '\x7b'

/-- `llm_output.rfind('}')`. -/
def strRfindCloseBrace (s : String) : Option Nat :=
  (charIndex s.toList.reverse '\x7d').map fun i => s.toList.length - 1 - i

/-- The JSON-extraction chain of the structuring stage (llm_structure.py
lines 384-398): direct parse, then the first-`{`-to-last-`}` substring,
then the `{"raw_response": ...}` fallback. -/
def parseLlmOutput (loads : String → Option Json) (llmOutput : String) : Json :=
  match loads llmOutput with
  | some j => j
  | none =>
    let rawResp : Json := .obj [("raw_response", .str llmOutput)]
    match strFindBrace llmOutput, strRfindCloseBrace llmOutput with
    | some startIdx, some lastIdx =>
      let endIdx := lastIdx + 1
      if endIdx > startIdx then
        match loads (String.mk ((llmOutput.toList.drop startIdx).take (endIdx - startIdx))) with
        | some j => j
        | none => rawResp
      else rawResp
    | _, _ => rawResp

/-- `.get` on a value that must be a dict; anything else raises
`AttributeError` (the post-parse code calls `structured_data.get(...)`). -/
def asObjForGet : Json → Except String (List (String × Json))
  | .obj entries => .ok entries
  | _ => .error "object has no attribute 'get'"

/-- Injection of an optional Python string into a JSON value (for `or`
chains mixing LLM output with `state.startup_data` fields). -/
def strJ : Option String → Json
  | none => .null
  | some s => .str s

/-- Injection of an optional Python int. -/
def intJ : Option Int → Json
  | none => .null
  | some n => .num (n : Rat)

/-- Validation of a pydantic `Optional[str]` field. -/
def asOptStr : Json → Except String (Option String)
  | .null => .ok none
  | .str s => .ok (some s)
  | _ => .error "Input should be a valid string"

/-- Validation of a pydantic `Optional[float]` field (pydantic v2 lax
mode: numbers and numeric strings validate, others do not). -/
def asOptFloat : Json → Except String (Option Rat)
  | .null => .ok none
  | .num q => .ok (some q)
  | .str s =>
    match parsePyFloat s with
    | some q => .ok (some q)
    | none => .error "Input should be a valid number"
  | _ => .error "Input should be a valid number"

/-- Validation of a pydantic `Dict` field. -/
def asObjEntries : Json → Except String (List (String × Json))
  | .obj entries => .ok entries
  | _ => .error "Input should be a valid dictionary"

/-- Validation of a pydantic `Optional[Dict]` field. -/
def asOptObj : Json → Except String (Option Json)
  | .null => .ok none
  | .obj entries => .ok (some (.obj entries))
  | _ => .error "Input should be a valid dictionary"

/-- Validation of a pydantic `List[str]` field with no `isinstance`
guard at the call site (`news_mentions`). -/
def asStrListOrMissing : Option Json → Except String (List String)
  | none => .ok []
  | some (.arr xs) => xs.mapM asStr
  | some _ => .error "Input should be a valid list"

/-- Iteration `for f in founders_data` (llm_structure.py line 512): lists
yield elements, dicts yield keys, strings yield characters, other values
raise `TypeError`. -/
def iterElems : Json → Except String (List Json)
  | .arr xs => .ok xs
  | .obj entries => .ok (entries.map fun kv => .str kv.1)
  | .str s => .ok (s.toList.map fun c => .str (String.mk [c]))
  | .null => .error "'NoneType' object is not iterable"
  | .num _ => .error "'float' object is not iterable"
  | .bool _ => .error "'bool' object is not iterable"

/-- One `FounderProfile(...)` construction (llm_structure.py lines
514-524). -/
def buildFounder (f : List (String × Json)) : Except String FounderProfile := do
  let name ← asStr (pyOr (Json.getD f "name" .null) (.str ""))
  let role ← asStr (pyOr (Json.getD f "role" .null) (.str ""))
  let linkedinUrl ← asStr (pyOr (Json.getD f "linkedin_url" .null) (.str ""))
  let education ← asStrListIfList (Json.get? f "education")
  let previousCompanies ← asStrListIfList (Json.get? f "previous_companies")
  let previousExits ← asStrListIfList (Json.get? f "previous_exits")
  let yearsExperience ←
    if (Json.getD f "years_experience" .null).truthy then
      pyInt (Json.getD f "years_experience" (.num 0))
    else .ok 0
  let domainExpertise ← asStr (pyOr (Json.getD f "domain_expertise" .null) (.str ""))
  let notableAchievements ← asStrListIfList (Json.get? f "notable_achievements")
  pure { name := name, role := role, linkedin_url := linkedinUrl,
         education := education, previous_companies := previousCompanies,
         previous_exits := previousExits, years_experience := yearsExperience,
         domain_expertise := domainExpertise,
         notable_achievements := notableAchievements }

/-- The founder-profiles loop (llm_structure.py lines 510-525): dict
elements become profiles, non-dict elements are skipped. -/
def buildFounders (structured : List (String × Json)) :
    Except String (List FounderProfile) := do
  let elems ← iterElems (Json.getD structured "founders" (.arr []))
  elems.foldlM
    (fun acc f =>
      match f with
      | .obj e => do
        let p ← buildFounder e
        pure (acc ++ [p])
      | _ => pure acc)
    []

/-- Truthiness of an optional Python int (`None` and `0` are falsy). -/
def intOptTruthy : Option Int → Bool
  | none => false
  | some n => n ≠ 0

/-- Truthiness of an optional Python float. -/
def ratOptTruthy : Option Rat → Bool
  | none => false
  | some q => q ≠ 0

/-- Fuel for the non-structural recursion of `_extract_text_from_field`. -/
def extractFuel : Nat := 1000

/-- The `ResearchFindings(...)` construction of the structuring stage
(llm_structure.py lines 578-658), field by field with its `or`-fallbacks
to the API input and its `int(...)`/`_extract_text_from_field`
conversions. -/
def buildResearchFindings (loads : String → Option Json) (sd : StartupData)
    (structured : List (String × Json)) (founders : List FounderProfile)
    (scorecard : AIScorecard) : Except String ResearchFindings := do
  let g := fun k => Json.getD structured k .null
  let ext := fun j => extractTextFromField loads extractFuel j
  let name ← asStr (pyOr (g "name") (pyOr (.str sd.name) (.str "")))
  let legalName ← asStr (pyOr (g "legal_name")
    (pyOr (strJ sd.legal_name) (pyOr (.str sd.name) (.str ""))))
  let description ← asStr (pyOr (g "description") (pyOr (strJ sd.description) (.str "")))
  let location ← asStr (pyOr (g "location") (pyOr (strJ sd.location) (.str "")))
  let website ← asStr (pyOr (g "website") (pyOr (strJ sd.website) (.str "")))
  let companyEmail ← asOptStr (g "company_email")
  let companyPhone ← asOptStr (g "company_phone")
  let industry ← asStr (pyOr (g "industry") (pyOr (strJ sd.industry) (.str "")))
  let startupIndustryDomain ← asStr (pyOr (g "startup_industry_domain")
    (pyOr (strJ sd.industry) (.str "")))
  let thesisName ← asStr (pyOr (g "thesis_name") (.str "OTHERS"))
  let startupStage ← asStr (pyOr (g "startup_stage") (pyOr (strJ sd.stage) (.str "")))
  let ceoName ← asStr (pyOr (g "ceo_name") (.str ""))
  let ceoEmail ← asStr (pyOr (g "ceo_email") (.str ""))
  let ceoPhone ← asStr (pyOr (g "ceo_phone") (.str ""))
  let ceoLinkedinUrl ← asStr (pyOr (g "ceo_linkedin_url")
    (pyOr (strJ sd.ceo_linkedin_url) (.str "")))
  let companyGoal ← asStr (pyOr (g "company_goal") (.str ""))
  let employeeCount ← pyInt (pyOr (g "employee_count")
    (pyOr (intJ sd.team_size) (.num 0)))
  -- `structured_data.get("company_info") or {...} if state.startup_data
  -- .founded_year else {}`: the conditional binds the whole `or`
  -- expression, so without a founded year the dict is always `{}`.
  let companyInfo ← asObjEntries
    (if intOptTruthy sd.founded_year then
      pyOr (g "company_info")
        (.obj [("founded_year", intJ sd.founded_year)])
    else .obj [])
  let marketAnalysis := ext (pyOr (g "market_analysis") (.str ""))
  let teamInsights := ext (pyOr (g "team_insights") (.str ""))
  let competitiveLandscape := ext (pyOr (g "competitive_landscape") (.str ""))
  let fundingInfo ← asOptObj (g "funding_info")
  let newsMentions ← asStrListOrMissing (Json.get? structured "news_mentions")
  let socialPresence ← asOptObj (g "social_presence")
  let technologyStack := ext (pyOr (g "technology_stack") (.str ""))
  let customerBase := ext (pyOr (g "customer_base") (.str ""))
  let productDescription ← asStr (pyOr (g "product_description") (.str ""))
  let uniqueValueProposition ← asStr (pyOr (g "unique_value_proposition") (.str ""))
  let technologyMoat ← asStr (pyOr (g "technology_moat") (.str ""))
  let businessModelDetails ← asStr (pyOr (g "business_model_details") (.str ""))
  let revenueModel ← asStr (pyOr (g "revenue_model") (.str ""))
  let pricingStrategy ← asStr (pyOr (g "pricing_strategy") (.str ""))
  let fundingRaised ← asOptFloat (g "funding_raised")
  let fundingAskAmount ← asOptFloat (g "funding_ask_amount")
  let currentMrr ← asOptFloat (g "current_mrr")
  let currentArr ← asOptFloat (g "current_arr")
  let yoyGrowthRate ← asOptFloat (g "yoy_growth_rate")
  let customerAcquisitionCost ← asOptFloat (g "customer_acquisition_cost")
  let lifetimeValue ← asOptFloat (g "lifetime_value")
  let burnRate ← asOptFloat (g "burn_rate")
  let runwayMonths ←
    if (g "runway_months").truthy then do
      let n ← pyInt (g "runway_months")
      pure (some n)
    else pure none
  let keyMetrics ← asObjEntries (pyOr (g "key_metrics") (.obj []))
  let totalCustomers ←
    if (g "total_customers").truthy then do
      let n ← pyInt (g "total_customers")
      pure (some n)
    else pure none
  let activeUsers ←
    if (g "active_users").truthy then do
      let n ← pyInt (g "active_users")
      pure (some n)
    else pure none
  let retentionRate ← asOptFloat (g "retention_rate")
  let tam ← asOptFloat (g "tam")
  let sam ← asOptFloat (g "sam")
  let som ← asOptFloat (g "som")
  let marketGrowthRate ← asOptFloat (g "market_growth_rate")
  let partnerships ← asStrListIfList (Json.get? structured "partnerships")
  let awardsRecognition ← asStrListIfList (Json.get? structured "awards_recognition")
  let investmentHighlights ← asStrListIfList (Json.get? structured "investment_highlights")
  let riskFactors ← asStrListIfList (Json.get? structured "risk_factors")
  let knownCompetitors ← asStrListIfList (Json.get? structured "known_competitors")
  pure { name := name, legal_name := legalName, description := description,
         location := location, website := website,
         company_email := companyEmail, company_phone := companyPhone,
         industry := industry, startup_industry_domain := startupIndustryDomain,
         thesis_name := thesisName, startup_stage := startupStage,
         ceo_name := ceoName, ceo_email := ceoEmail, ceo_phone := ceoPhone,
         ceo_linkedin_url := ceoLinkedinUrl, company_goal := companyGoal,
         employee_count := employeeCount, funding_raised := fundingRaised,
         funding_ask_amount := fundingAskAmount, company_info := companyInfo,
         market_analysis := marketAnalysis, team_insights := teamInsights,
         competitive_landscape := competitiveLandscape,
         funding_info := fundingInfo, news_mentions := newsMentions,
         social_presence := socialPresence,
         technology_stack := some technologyStack,
         customer_base := some customerBase, founders := founders,
         product_description := productDescription,
         unique_value_proposition := uniqueValueProposition,
         technology_moat := technologyMoat,
         business_model_details := businessModelDetails,
         revenue_model := revenueModel, pricing_strategy := pricingStrategy,
         current_mrr := currentMrr, current_arr := currentArr,
         yoy_growth_rate := yoyGrowthRate,
         customer_acquisition_cost := customerAcquisitionCost,
         lifetime_value := lifetimeValue, burn_rate := burnRate,
         runway_months := runwayMonths, key_metrics := keyMetrics,
         total_customers := totalCustomers, active_users := activeUsers,
         retention_rate := retentionRate, tam := tam, sam := sam, som := som,
         market_growth_rate := marketGrowthRate, partnerships := partnerships,
         awards_recognition := awardsRecognition,
         investment_highlights := investmentHighlights,
         risk_factors := riskFactors, ai_scorecard := some scorecard,
         known_competitors := knownCompetitors }

/-- Pydantic attribute read `raw_gathering_data.tavily_report`:
`RawGatheringData` (state.py lines 26-30) declares only
`pitch_deck_extracted`, `website_scraped` and `search_results`, so this
read raises `AttributeError` for every instance. -/
def tavilyReportAttr (_ : RawGatheringData) : Except String Json :=
  .error "'RawGatheringData' object has no attribute 'tavily_report'"

/-- Pydantic attribute read `raw_gathering_data.tavily_data` (also
undeclared, see `tavilyReportAttr`). -/
def tavilyDataAttr (_ : RawGatheringData) : Except String Json :=
  .error "'RawGatheringData' object has no attribute 'tavily_data'"

/-- Render an optional string the way an f-string renders it. -/
def fstr : Option String → String
  | none => "None"
  | some s => s

/-- `x or 'Not provided'` inside the context f-string. -/
def orNotProvided (x : Option String) : String :=
  if strOptTruthy x then x.getD "" else "Not provided"

/-- The LLM context construction (llm_structure.py lines 84-140).  The
f-string evaluates its pieces in order: the startup-data fields, the
pitch-deck/website/search blocks (all total), and then
`raw_gathering_data.tavily_report` — an attribute `RawGatheringData`
does not declare.  That read raises `AttributeError`, so the context
never finishes building, for every input state. -/
def llmBuildContext (state : GraphState) : Except String String := do
  let rgd := state.raw_gathering_data.getD {}
  let pitchDeckText := match rgd.pitch_deck_extracted with
    | some p => p.raw_text
    | none => ""
  let websiteText := match rgd.website_scraped with
    | some w => w.main_content
    | none => ""
  let searchResults := match rgd.search_results with
    | some r => r.search_results
    | none => []
  let header :=
    "STARTUP INFORMATION\n===================\n" ++
    "Name: " ++ state.startup_data.name ++ "\n" ++
    "Legal Name: " ++ (if strOptTruthy state.startup_data.legal_name then
      state.startup_data.legal_name.getD "" else state.startup_data.name) ++ "\n" ++
    "Industry: " ++ fstr state.startup_data.industry ++ "\n" ++
    "Description: " ++ fstr state.startup_data.description ++ "\n" ++
    "Email: " ++ fstr state.startup_data.email ++ "\n" ++
    "Website: " ++ orNotProvided state.startup_data.website ++ "\n" ++
    "Founders: " ++ orNotProvided state.startup_data.founders ++ "\n" ++
    "Stage: " ++ orNotProvided state.startup_data.stage ++ "\n" ++
    "Team Size: " ++ (if intOptTruthy state.startup_data.team_size then
      toString ((state.startup_data.team_size).getD 0) else "Not provided") ++ "\n" ++
    "Founded Year: " ++ (if intOptTruthy state.startup_data.founded_year then
      toString ((state.startup_data.founded_year).getD 0) else "Not provided") ++ "\n" ++
    "Location: " ++ orNotProvided state.startup_data.location ++ "\n" ++
    "CEO LinkedIn: " ++ orNotProvided state.startup_data.ceo_linkedin_url ++ "\n"
  let pitchBlock := if pitchDeckText ≠ "" then pitchDeckText else "Pitch deck not provided"
  let websiteBlock := if websiteText ≠ "" then websiteText else "Website not scraped"
  let searchBlock := if searchResults.isEmpty then "No search results available"
    else pyStr (.obj searchResults)
  let tavilyReport ← tavilyReportAttr rgd
  let tavilyReportBlock := if tavilyReport.truthy then pyStr tavilyReport
    else "No deep research report available"
  let tavilyData ← tavilyDataAttr rgd
  let tavilyDataBlock := if tavilyData.truthy then pyStr tavilyData
    else "No raw data available"
  pure (header ++
    "\nPITCH DECK CONTENT\n==================\n" ++ pitchBlock ++
    "\nWEBSITE CONTENT\n===============\n" ++ websiteBlock ++
    "\nSEARCH RESULTS (Comprehensive)\n==============================\n" ++ searchBlock ++
    "\nTAVILY DEEP RESEARCH REPORT\n===========================\n" ++ tavilyReportBlock ++
    "\nTAVILY RAW DATA (Source Details)\n================================\n" ++ tavilyDataBlock ++ "\n")

/-- The body of the structuring stage inside its `try` (llm_structure.py
lines 76-691): build the context, call the LLM, parse and flatten the
JSON, build the founder profiles, the scorecard and the findings, and
return the success update `{"status": "structured_by_llm",
"research_findings": ...}`. -/
def llmStructureBody (env : Env) (state : GraphState) :
    Except String NodeUpdate := do
  let ctx ← llmBuildContext state
  let llmOutput ← env.llmComplete ctx
  let parsed := parseLlmOutput env.jsonLoads llmOutput
  let flattened := flatten_nested_json parsed
  let structured ← asObjForGet flattened
  let founders ← buildFounders structured
  let scorecard ← buildAIScorecard structured
  let findings ← buildResearchFindings env.jsonLoads state.startup_data
    structured founders scorecard
  pure { status := some "structured_by_llm",
         research_findings := some (some findings) }

/-- Node 4, `llm_structure_node` (llm_structure.py lines 52-702): the
body above, with the stage-wide `except` converting any exception into
`{"status": "error", "errors": ["LLM structuring error: ..."]}`. -/
def llm_structure_node (env : Env) (state : GraphState) :
    GraphState × NodeUpdate :=
  match llmStructureBody env state with
  | .ok u => (state, u)
  | .error e =>
    (state, { status := some "error",
              errors := some ["LLM structuring error: " ++ e] })

/-! ## The gathering stages (nodes 1-3)

A node is a function `Env → GraphState → GraphState × NodeUpdate`.
The first component of the result is the input record as it stands when
the node returns: the engine passes the record by reference, so writes a
node performs on it (`state.pitch_deck_text = ...`, or assignments into
the shared `raw_gathering_data` object) are visible there even before
the partial update is merged.  A node that performs no such write
returns the input record unchanged. -/

/-- `s.lower()`. -/
def strLower (s : String) : String :=
  String.mk (s.toList.map Char.toLower)

/-- Skip update of node 1 (parse_pitch_deck.py lines 92-95): a *fresh*
`RawGatheringData()` is written to the channel. -/
def noPitchDeckUpdate : NodeUpdate :=
  { status := some "no_pitch_deck", raw_gathering_data := some (some {}) }

/-- The parsing body of node 1 once pitch-deck text is available
(parse_pitch_deck.py lines 97-151): key phrases are extracted and a
fresh `RawGatheringData` is built around the `ExtractedPitchDeck`.  The
call also computes a `slides_count` and passes it to
`ExtractedPitchDeck(...)` (line 119), but the model declares no such
field (state.py lines 5-8), so pydantic drops the kwarg. -/
def parsePitchDeckBody (env : Env) (state : GraphState) :
    GraphState × NodeUpdate :=
  let text := state.pitch_deck_text.getD ""
  let keyPoints := env.keyPhrases text
  let extracted : ExtractedPitchDeck := { raw_text := text, key_points := keyPoints }
  (state,
   { status := some "pitch_deck_parsed",
     raw_gathering_data := some (some
       { pitch_deck_extracted := some extracted,
         website_scraped := none, search_results := none }) })

/-- Node 1, `parse_pitch_deck_node` (parse_pitch_deck.py lines 5-160):
with a URL and no text yet, download and extract; on extraction success
the node *assigns `state.pitch_deck_text` on the input record*
(line 75) before parsing; without any input it skips with
`no_pitch_deck`. -/
def parse_pitch_deck_node (env : Env) (state : GraphState) :
    GraphState × NodeUpdate :=
  if strOptTruthy state.pitch_deck_url ∧ ¬ strOptTruthy state.pitch_deck_text then
    if env.downloadPitchDeck (state.pitch_deck_url.getD "") then
      let result := env.extractTextFromPath "temp_downloads/downloaded_pitch_deck.pdf"
      if result.success then
        parsePitchDeckBody env { state with pitch_deck_text := some result.full_text }
      else (state, noPitchDeckUpdate)
    else (state, noPitchDeckUpdate)
  else if strOptTruthy state.pitch_deck_text then
    parsePitchDeckBody env state
  else (state, noPitchDeckUpdate)

/-- The hard-coded technology keyword list (scrape_website.py lines
88-90). -/
def commonTechs : List String :=
  ["react", "python", "aws", "kubernetes", "nodejs",
   "vue", "angular", "django", "flask", "postgresql",
   "mongodb", "docker", "firebase", "gcp", "azure"]

/-- Technology detection (scrape_website.py lines 86-95): keywords found
in the lowercased main text + description, uppercased. -/
def detectTechs (mainText description : String) : List String :=
  let combined := strLower (mainText ++ " " ++ description)
  (commonTechs.filter fun t => strContains combined t).map strUpper

/-- Node 2, `scrape_website_node` (scrape_website.py lines 5-147).
On success the node assigns `website_scraped` *into the shared
`raw_gathering_data` object of the input record* (lines 112-113);
exceptions from the scraper are converted by the stage's `except` into
`{"status": "error", "errors": ["Website scraping error: ..."]}`. -/
def scrape_website_node (env : Env) (state : GraphState) :
    GraphState × NodeUpdate :=
  let existingRgd := state.raw_gathering_data.getD {}
  if ¬ strOptTruthy state.startup_data.website then
    (state, { status := some "no_website",
              raw_gathering_data := some (some existingRgd) })
  else
    match env.scrape (state.startup_data.website.getD "") with
    | .error e =>
      (state, { status := some "error",
                raw_gathering_data := some (some existingRgd),
                errors := some ["Website scraping error: " ++ e] })
    | .ok res =>
      if ¬ res.success then
        (state, { status := some "website_scrape_failed",
                  raw_gathering_data := some (some existingRgd),
                  errors := some ["Website scraping failed: " ++ res.error] })
      else
        let swd : ScrapedWebsiteData :=
          { page_title := res.title, page_description := res.description,
            main_content := res.main_text,
            technologies_detected := detectTechs res.main_text res.description }
        let newRgd := { existingRgd with website_scraped := some swd }
        let state' :=
          if state.raw_gathering_data.isSome then
            { state with raw_gathering_data := some newRgd }
          else state
        (state', { status := some "website_scraped",
                   raw_gathering_data := some (some newRgd) })

/-- `{"title": ..., "link": ..., "snippet": ...}` for one search hit. -/
def searchItemJson (item : SearchItem) : Json :=
  .obj [("title", .str item.title), ("link", .str item.link),
        ("snippet", .str item.snippet)]

/-- `searches.get(key, {})` followed by the success check and the `[:n]`
slice (search_startup.py lines 117-234). -/
def organizeCategory (searches : List (String × CategoryResult))
    (key : String) (limit : Nat) : List SearchItem :=
  let c := ((searches.find? fun kv => kv.1 = key).map (·.2)).getD {}
  if c.success then c.results.take limit else []

/-- The `organized_results` dict of node 3 (search_startup.py lines
101-234): twelve categories in insertion order, each capped at 3 hits
(news at 5). -/
def organizeResults (out : SerpOutcome) : List (String × List SearchItem) :=
  [("company_info", organizeCategory out.searches "company_search" 3),
   ("funding_info", organizeCategory out.searches "funding_search" 3),
   ("product_info", organizeCategory out.searches "product_search" 3),
   ("team_info", organizeCategory out.searches "team_search" 3),
   ("news_articles", if out.news.success then out.news.results.take 5 else []),
   ("financials_info", organizeCategory out.searches "financials_search" 3),
   ("customer_reviews", organizeCategory out.searches "reviews_search" 3),
   ("partnerships", organizeCategory out.searches "partnerships_search" 3),
   ("industry_analysis", organizeCategory out.searches "market_search" 3),
   ("crunchbase_info", organizeCategory out.searches "crunchbase_search" 3),
   ("linkedin_info", organizeCategory out.searches "linkedin_search" 3),
   ("founder_backgrounds", organizeCategory out.searches "founder_backgrounds_search" 3)]

/-- Node 3, `search_startup_node` (search_startup.py lines 6-287).  On
success the node assigns `search_results` into the shared
`raw_gathering_data` object of the input record (lines 249-250); tool
failure appends `"Startup search failed: ..."`, a raised exception
`"Startup search error: ..."`. -/
def search_startup_node (env : Env) (state : GraphState) :
    GraphState × NodeUpdate :=
  let existingRgd := state.raw_gathering_data.getD {}
  if state.startup_data.name = "" then
    (state, { status := some "no_startup_name",
              raw_gathering_data := some (some existingRgd) })
  else
    match env.serp state.startup_data.name state.startup_data.industry with
    | .error e =>
      (state, { status := some "error",
                raw_gathering_data := some (some existingRgd),
                errors := some ["Startup search error: " ++ e] })
    | .ok out =>
      if ¬ out.success then
        (state, { status := some "search_failed",
                  raw_gathering_data := some (some existingRgd),
                  errors := some ["Startup search failed: " ++ out.error] })
      else
        let organized := organizeResults out
        let serpResults : SerpAPIResults :=
          { search_query := state.startup_data.name,
            search_results := organized.map fun kv =>
              (kv.1, Json.arr (kv.2.map searchItemJson)),
            news_articles :=
              (((organized.find? fun kv => kv.1 = "news_articles").map (·.2)).getD []).map
                searchItemJson }
        let newRgd := { existingRgd with search_results := some serpResults }
        let state' :=
          if state.raw_gathering_data.isSome then
            { state with raw_gathering_data := some newRgd }
          else state
        (state', { status := some "search_completed",
                   raw_gathering_data := some (some newRgd) })

/-- The external search collaborators node 3 invokes, following its
control flow (search_startup.py lines 52-60): it constructs a
`SerpAPISearch` and awaits `search_startup`, nothing else.  No pipeline
node constructs or calls `TavilySearch`; in particular
`TavilySearch.run_deep_research` has no caller in the workflow. -/
def search_startup_node_calls (state : GraphState) : List String :=
  if state.startup_data.name = "" then [] else ["SerpAPISearch.search_startup"]

/-! ## The analysis and output stages (nodes 5-10) -/

/-- The JSON-extraction chain of node 5 (analyze_competitors.py lines
199-217).  Note the quirk: when the direct parse fails and the response
contains no `{...}` span, the inner `try` completes without assigning
`competitor_data`, so the following `.get` raises `NameError` (caught
only by the stage-wide handler); the fallback default dict is reached
only when the *substring* parse raises. -/
def parseCompetitorOutput (loads : String → Option Json) (out : String) :
    Except String Json :=
  match loads out with
  | some j => .ok j
  | none =>
    let defaultDict : Json := .obj
      [("competitors", .arr []),
       ("market_overview", .str "Unable to parse competitor data"),
       ("competitive_advantages", .str ""),
       ("market_threats", .str ""),
       ("validated_market_data", .obj [])]
    match strFindBrace out, strRfindCloseBrace out with
    | some startIdx, some lastIdx =>
      if lastIdx + 1 > startIdx then
        match loads (String.mk ((out.toList.drop startIdx).take (lastIdx + 1 - startIdx))) with
        | some j => .ok j
        | none => .ok defaultDict
      else .error "name 'competitor_data' is not defined"
    | _, _ => .error "name 'competitor_data' is not defined"

/-- Validation of a pydantic `Optional[int]` field (pydantic v2 lax:
`None`, integral numbers and integer strings validate). -/
def asOptInt : Json → Except String (Option Int)
  | .null => .ok none
  | .num q =>
    if q.den = 1 then .ok (some q.num)
    else .error "Input should be a valid integer"
  | .str s =>
    let (neg, cs) := splitSign s.toList
    match digitsVal cs with
    | some n => .ok (some (if neg then -(n : Int) else (n : Int)))
    | none => .error "Input should be a valid integer"
  | _ => .error "Input should be a valid integer"

/-- One `Competitor(...)` construction (analyze_competitors.py lines
230-241). -/
def buildCompetitor (c : List (String × Json)) : Except String Competitor := do
  let name ← asStr (pyOr (Json.getD c "name" .null) (.str ""))
  let foundedYear ← asOptInt (Json.getD c "founded_year" .null)
  let headquarters ← asStr (pyOr (Json.getD c "headquarters" .null) (.str ""))
  let fundingRaised ← asOptFloat (Json.getD c "funding_raised" .null)
  let currentValuation ← asOptFloat (Json.getD c "current_valuation" .null)
  let revenue ← asOptFloat (Json.getD c "revenue" .null)
  let businessModel ← asStr (pyOr (Json.getD c "business_model" .null) (.str ""))
  let focusMarket ← asStr (pyOr (Json.getD c "focus_market" .null) (.str ""))
  let traction ← asStr (pyOr (Json.getD c "traction" .null) (.str ""))
  let similarities ← asStr (pyOr (Json.getD c "similarities" .null) (.str ""))
  pure { name := name, founded_year := foundedYear,
         headquarters := headquarters, funding_raised := fundingRaised,
         current_valuation := currentValuation, revenue := revenue,
         business_model := businessModel, focus_market := focusMarket,
         traction := traction, similarities := similarities }

/-- The field names `CompetitorAnalysis` declares (state.py lines
244-250). -/
def competitorAnalysisDeclaredFields : List String :=
  ["startup_name", "competitors", "market_overview",
   "competitive_advantages", "market_threats"]

/-- The keyword arguments the construction site passes
(analyze_competitors.py lines 255-265). -/
def competitorAnalysisPassedKwargs : List String :=
  ["startup_name", "competitors", "market_overview",
   "competitive_advantages", "market_threats",
   "tam", "sam", "som", "market_data_explanation"]

/-- The kwargs pydantic's default `extra='ignore'` silently drops at
that construction site. -/
def competitorAnalysisDroppedKwargs : List String :=
  competitorAnalysisPassedKwargs.filter fun k =>
    ¬ competitorAnalysisDeclaredFields.contains k

/-- The competitor-objects loop and the `CompetitorAnalysis(...)` call
(analyze_competitors.py lines 222-265): at most 5 competitors are built
(the `[:5]` slice; per-item failures are skipped by the inner `try`),
and the `tam`/`sam`/`som`/`market_data_explanation` kwargs read from
`validated_market_data` are dropped because `CompetitorAnalysis`
(state.py lines 244-250) declares no such fields. -/
def buildCompetitorAnalysis (startupName : String) (competitorData : Json) :
    Except String CompetitorAnalysis := do
  let entries ← asObjForGet competitorData
  let competitorList ←
    match Json.getD entries "competitors" (.arr []) with
    | .arr xs => .ok xs
    | _ => .error "object is not subscriptable"
  let competitors := (competitorList.take 5).filterMap fun cd =>
    match cd with
    | .obj e => (buildCompetitor e).toOption
    | _ => none
  let marketOverview ← asStr (pyOr (Json.getD entries "market_overview" .null) (.str ""))
  let competitiveAdvantages ←
    asStr (pyOr (Json.getD entries "competitive_advantages" .null) (.str ""))
  let marketThreats ← asStr (pyOr (Json.getD entries "market_threats" .null) (.str ""))
  pure { startup_name := startupName, competitors := competitors,
         market_overview := marketOverview,
         competitive_advantages := competitiveAdvantages,
         market_threats := marketThreats }

/-- The prompt parameters of node 5 rendered for the LLM oracle
(analyze_competitors.py lines 178-189); the exact template text only
feeds the collaborator. -/
def competitorPromptParams (rf : ResearchFindings) (tavilyReport : String) :
    String :=
  let businessModel := if rf.company_goal ≠ "" then rf.company_goal else "Not specified"
  let focusMarket := match rf.customer_base with
    | some c => if c ≠ "" then c else "Not specified"
    | none => "Not specified"
  let knownCompetitors := String.intercalate ", " rf.known_competitors
  rf.name ++ "|" ++ rf.industry ++ "|" ++ businessModel ++ "|" ++ focusMarket ++
    "|" ++ knownCompetitors ++ "|" ++ rf.description ++ "|" ++
    (if tavilyReport ≠ "" then tavilyReport else "No deep research report available.")

/-- The body of node 5 inside its `try` (analyze_competitors.py lines
31-296).  With findings present and a non-`None` `raw_gathering_data`,
line 63 reads `raw_data.tavily_report` — an attribute
`RawGatheringData` does not declare — so that path raises. -/
def analyzeCompetitorsBody (env : Env) (state : GraphState) :
    Except String NodeUpdate := do
  match state.research_findings with
  | none =>
    pure { status := some "no_research_findings",
           competitor_analysis := some none }
  | some rf => do
    let tavilyReport : String ←
      match state.raw_gathering_data with
      | some rgd => do
        let rep ← tavilyReportAttr rgd
        pure (if rep.truthy then pyStr rep else "")
      | none => pure ""
    let llmOutput ← env.llmCompetitors (competitorPromptParams rf tavilyReport)
    let competitorData ← parseCompetitorOutput env.jsonLoads llmOutput
    let analysis ← buildCompetitorAnalysis rf.name competitorData
    pure { status := some "competitors_analyzed",
           competitor_analysis := some (some analysis) }

/-- Node 5, `analyze_competitors_node` (analyze_competitors.py lines
8-307), with the stage-wide `except` producing
`{"status": "error", "errors": ["Competitor analysis error: ..."]}`. -/
def analyze_competitors_node (env : Env) (state : GraphState) :
    GraphState × NodeUpdate :=
  match analyzeCompetitorsBody env state with
  | .ok u => (state, u)
  | .error e =>
    (state, { status := some "error",
              errors := some ["Competitor analysis error: " ++ e] })

/-- Node 6, `generate_investment_thesis_node` (investment_thesis.py
lines 207-975): skip without findings, otherwise render the PDF; a
rendering exception becomes `{"status": "error", "errors":
["PDF generation error: ..."]}`. -/
def generate_investment_thesis_node (env : Env) (state : GraphState) :
    GraphState × NodeUpdate :=
  match state.research_findings with
  | none =>
    (state, { status := some "no_research_findings",
              thesis_pdf_path := some none })
  | some rf =>
    match env.renderThesisPdf rf state.competitor_analysis state.startup_data with
    | .ok pdfPath =>
      (state, { status := some "thesis_pdf_generated",
                thesis_pdf_path := some (some pdfPath) })
    | .error e =>
      (state, { status := some "error",
                errors := some ["PDF generation error: " ++ e] })

/-- `d.get(k)` where `d` must be a dict (an `AttributeError` otherwise). -/
def getFromObj (j : Json) (k : String) : Except String Json :=
  match j with
  | .obj entries => .ok (Json.getD entries k .null)
  | _ => .error "object has no attribute 'get'"

/-- `d.get(k, {})`. -/
def getFromObjD (j : Json) (k : String) : Except String Json :=
  match j with
  | .obj entries => .ok ((Json.get? entries k).getD (.obj []))
  | _ => .error "object has no attribute 'get'"

/-- The value stored into an id channel: ids are strings in practice;
other truthy JSON values are rendered (LangGraph does not re-validate
node updates against the pydantic schema). -/
def idChannelValue : Json → Option String
  | .null => none
  | .bool false => none
  | .str s => if s = "" then none else some s
  | v => if v.truthy then some (pyStr v) else none

/-- The `startupId` extraction chain of node 7 (startup_creation.py line
106): `resp_data.get("startupId") or resp_data.get("id") or
resp_data.get("data", {}).get("id") or
resp_data.get("data", {}).get("startupId")`, with Python's lazy `or`. -/
def extractStartupId (respData : Json) : Except String Json := do
  let a ← getFromObj respData "startupId"
  if a.truthy then pure a else do
  let b ← getFromObj respData "id"
  if b.truthy then pure b else do
  let d1 ← getFromObjD respData "data"
  let c ← getFromObj d1 "id"
  if c.truthy then pure c else do
  let d2 ← getFromObjD respData "data"
  getFromObj d2 "startupId"

/-- The thesis-id mapping of node 7 (startup_creation.py lines 23-32). -/
def thesisMapping : List (String × String) :=
  [("CONSUMER", "efa9a64e-da53-462b-9270-3fe4dc52ec91"),
   ("HEALTHCARE", "76adc22b-4d75-4263-9745-b1a49e1f7af1"),
   ("IMPACT_SDG", "6b596708-3c7a-47ea-80db-a869e7cd3b49"),
   ("SINGULARITY_AI", "74d241c1-c0b9-450d-926e-bef49d8e877e"),
   ("EMC", "d4a8f75b-272c-415e-b744-285e9eda4a04"),
   ("RUMS", "6ddbc09f-31ba-44b6-9100-ecfaafd056cc"),
   ("RETAIN", "ed011499-8d8e-4580-b8ad-6fbd2b6ce0dc"),
   ("OTHERS", "f1371624-94ab-4b47-8206-c6d776b2859a")]

/-- `int(x)` with the `try/except → 0` guard of node 7 (lines 45-57). -/
def fundingToInt (x : Option Rat) : Int :=
  match x with
  | some q => if q ≠ 0 then (if 0 ≤ q then q.floor else q.ceil) else 0
  | none => 0

/-- The POST payload of node 7 (startup_creation.py lines 59-83).  The
`organizationId` entry holds the deployment constant
`Config.PLATFORM_ORG_ID` and is left out of the model: configuration
values are collaborator-side and no claim reads the payload. -/
def startupPayload (rf : ResearchFindings) (state : GraphState) : Json :=
  let thesisId := ((thesisMapping.find? fun kv => kv.1 = rf.thesis_name).map (·.2)).getD
    "f1371624-94ab-4b47-8206-c6d776b2859a"
  .obj
    [("status", .str "DRAFT"),
     ("evaluationStage", .str "APPLICATION_RECEIVED"),
     ("thesisId", .str thesisId),
     ("thesisName", .str rf.thesis_name),
     ("name", .str rf.name),
     ("legalName", .str (if rf.legal_name ≠ "" then rf.legal_name else rf.name)),
     ("description", .str rf.description),
     ("stage", .str (if rf.startup_stage ≠ "" then rf.startup_stage else "EARLY_TRACTION")),
     ("location", .str rf.location),
     ("website", .str rf.website),
     ("companyEmail", .str (match rf.company_email with
       | some e => if e ≠ "" then e else (state.startup_data.email.getD "")
       | none => state.startup_data.email.getD "")),
     ("companyPhone", .str (rf.company_phone.getD "")),
     ("ceoName", .str rf.ceo_name),
     ("ceoEmail", .str rf.ceo_email),
     ("ceoPhone", .str rf.ceo_phone),
     ("ceoLinkedinUrl", .str rf.ceo_linkedin_url),
     ("companyGoal", .str rf.company_goal),
     ("startupIndustryDomain", .str rf.industry),
     ("fundingRaised", .num (fundingToInt rf.funding_raised : Int)),
     ("fundingAskAmount", .num (fundingToInt rf.funding_ask_amount : Int)),
     ("startupSource", .str "WEBSITE_INBOUND"),
     ("dataRoomGDriveLinkPrimary", .str (state.pitch_deck_url.getD ""))]

/-- Node 7, `startup_creation_node` (startup_creation.py lines 6-136).
Without findings it skips — note the skip update *does* carry an error
string.  On HTTP 200/201 the `startupId` is extracted; other codes give
`api_error`; exceptions give `error`.  (The success update also returns
an `api_response` key, which is not a `GraphState` channel.)
This is the body inside the node's `try`. -/
def startupCreationBody (env : Env) (rf : ResearchFindings)
    (state : GraphState) : Except String NodeUpdate := do
  let _payload := startupPayload rf state
  let resp ← env.createStartup
  if resp.status_code = 200 ∨ resp.status_code = 201 then do
    let respData ← resp.jsonBody
    let idJ ← extractStartupId respData
    pure { status := some "startup_entry_created",
           startup_id := some (idChannelValue idJ) }
  else
    pure { status := some "api_error",
           errors := some ["API Error " ++ toString resp.status_code ++ ": " ++ resp.text] }

def startup_creation_node (env : Env) (state : GraphState) :
    GraphState × NodeUpdate :=
  match state.research_findings with
  | none =>
    (state, { status := some "skipped_api_entry",
              errors := some ["No research findings available for API entry"] })
  | some rf =>
    match startupCreationBody env rf state with
    | .ok u => (state, u)
    | .error e =>
      (state, { status := some "error",
                errors := some ["Startup entry creation error: " ++ e] })

/-- The `application_id` extraction chain of node 8
(startupApplication_creation.py line 75). -/
def extractApplicationId (respData : Json) : Except String Json := do
  let a ← getFromObj respData "id"
  if a.truthy then pure a else do
  let b ← getFromObj respData "applicationId"
  if b.truthy then pure b else do
  let d ← getFromObjD respData "data"
  getFromObj d "id"

/-- Node 8, `startup_application_creation_node`
(startupApplication_creation.py lines 6-103): skip (with an error
string) without a `startup_id`, else POST and extract the application
id. -/
def applicationCreationBody (env : Env) : Except String NodeUpdate := do
  let resp ← env.createApplication
  if resp.status_code = 200 ∨ resp.status_code = 201 then do
    let respData ← resp.jsonBody
    let idJ ← extractApplicationId respData
    pure { status := some "application_created",
           application_id := some (idChannelValue idJ) }
  else
    pure { status := some "api_error_app",
           errors := some ["Application API Error " ++ toString resp.status_code ++ ": " ++ resp.text] }

def startup_application_creation_node (env : Env) (state : GraphState) :
    GraphState × NodeUpdate :=
  if ¬ strOptTruthy state.startup_id then
    (state, { status := some "skipped_application_creation",
              errors := some ["No startup_id available for application creation"] })
  else
    match applicationCreationBody env with
    | .ok u => (state, u)
    | .error e =>
      (state, { status := some "error",
                errors := some ["Startup application creation error: " ++ e] })

/-- Node 9, `upload_thesis_node` (upload_thesis.py lines 7-114): three
skip preconditions (startup id, PDF present on disk, scorecard), then
the upload POST. -/
def upload_thesis_node (env : Env) (state : GraphState) :
    GraphState × NodeUpdate :=
  if ¬ strOptTruthy state.startup_id then
    (state, { status := some "skipped_upload_no_id" })
  else if ¬ strOptTruthy state.thesis_pdf_path ∨
      ¬ env.fileExists (state.thesis_pdf_path.getD "") then
    (state, { status := some "skipped_upload_no_pdf" })
  else if (state.research_findings.bind (·.ai_scorecard)).isNone then
    (state, { status := some "skipped_upload_no_scores" })
  else
    match env.uploadScore with
    | .error e =>
      (state, { status := some "error",
                errors := some ["Upload error: " ++ e] })
    | .ok resp =>
      if resp.status_code = 200 ∨ resp.status_code = 201 then
        (state, { status := some "upload_complete" })
      else
        (state, { status := some "upload_error",
                  errors := some ["Upload API Error " ++ toString resp.status_code ++ ": " ++ resp.text] })

/-- Node 10, `pitch_deck_upload_node` (pitchDeck_upload.py lines 6-84):
three skip preconditions (startup id, application id, pitch-deck file on
disk), then the document upload POST. -/
def pitch_deck_upload_node (env : Env) (state : GraphState) :
    GraphState × NodeUpdate :=
  if ¬ strOptTruthy state.startup_id then
    (state, { status := some "skipped_pitch_deck_upload_no_startup_id" })
  else if ¬ strOptTruthy state.application_id then
    (state, { status := some "skipped_pitch_deck_upload_no_app_id" })
  else if ¬ strOptTruthy state.pitch_deck_file_path ∨
      ¬ env.fileExists (state.pitch_deck_file_path.getD "") then
    (state, { status := some "skipped_pitch_deck_upload_no_file" })
  else
    match env.uploadDoc with
    | .error e =>
      (state, { status := some "error",
                errors := some ["Pitch deck upload error: " ++ e] })
    | .ok resp =>
      if resp.status_code = 200 ∨ resp.status_code = 201 then
        (state, { status := some "pitch_deck_upload_complete" })
      else
        (state, { status := some "pitch_deck_upload_error",
                  errors := some ["Pitch Deck Upload API Error " ++ toString resp.status_code ++ ": " ++ resp.text] })

/-! ## The pipeline engine (src/graph.py)

`build_research_graph` wires the ten nodes with *unconditional* linear
edges (graph.py lines 97-125) from `parse_pitch_deck` to
`pitch_deck_upload` and `END`; there are no conditional edges, so after
each node the engine merges the node's partial update (LangGraph
`LastValue` channels, `applyUpdate`) and always proceeds to the next
node. -/

/-- The ten nodes in wiring order (graph.py lines 64-129). -/
def pipelineNodes :
    List (String × (Env → GraphState → GraphState × NodeUpdate)) :=
  [("parse_pitch_deck", parse_pitch_deck_node),
   ("scrape_website", scrape_website_node),
   ("search_startup", search_startup_node),
   ("llm_structure", llm_structure_node),
   ("analyze_competitors", analyze_competitors_node),
   ("generate_investment_thesis", generate_investment_thesis_node),
   ("startup_creation", startup_creation_node),
   ("startup_application_creation", startup_application_creation_node),
   ("upload_thesis", upload_thesis_node),
   ("pitch_deck_upload", pitch_deck_upload_node)]

/-- One engine step: invoke the node on the current record (obtaining
the possibly-mutated record and the partial update) and merge the
update. -/
def runStep (env : Env) (s : GraphState)
    (node : Env → GraphState → GraphState × NodeUpdate) : GraphState :=
  let r := node env s
  applyUpdate r.1 r.2

/-- Sequential execution of the remaining nodes, recording the name of
every node invoked. -/
def runPipelineAux (env : Env) :
    List (String × (Env → GraphState → GraphState × NodeUpdate)) →
    GraphState → List String → GraphState × List String
  | [], s, trace => (s, trace)
  | n :: ns, s, trace =>
    runPipelineAux env ns (runStep env s n.2) (trace ++ [n.1])

/-- The full pipeline run: the final merged record. -/
def runPipeline (env : Env) (s0 : GraphState) : GraphState :=
  (runPipelineAux env pipelineNodes s0 []).1

/-- The names of the nodes a run invokes, in order. -/
def runPipelineTrace (env : Env) (s0 : GraphState) : List String :=
  (runPipelineAux env pipelineNodes s0 []).2

/-! ## The request handler (src/api.py, `research_startup`) -/

/-- The structured HTTP-style responses `/research-startup` returns:
the 200 success payload (api.py lines 212-234), the 500
no-findings failure (lines 239-255), and the 500 exception response
(lines 266-274). -/
inductive ResearchResponse where
  | success (startupName workflowStatus : String)
      (researchFindings : ResearchFindings) (aiScorecard : Option AIScorecard)
      (competitorAnalysis : Option CompetitorAnalysis)
      (thesisPdfPath : Option String) (errors : List String)
  | failure (startupName workflowStatus message : String) (errors : List String)
  | exceptionFailure (startupName message : String)

/-- The HTTP status code of a response. -/
def ResearchResponse.httpStatus : ResearchResponse → Nat
  | .success .. => 200
  | .failure .. => 500
  | .exceptionFailure .. => 500

/-- The `"status"` field of a response body. -/
def ResearchResponse.statusField : ResearchResponse → String
  | .success .. => "success"
  | .failure .. => "error"
  | .exceptionFailure .. => "error"

/-- Whether a response is the success shape. -/
def ResearchResponse.isSuccess : ResearchResponse → Bool
  | .success .. => true
  | _ => false

/-- Response construction from the final record (api.py lines 184-255):
success iff `research_findings` is present; the success payload carries
the findings, the scorecard, the competitor analysis, the report path
and the error list; the failure payload carries the fixed message plus
the accumulated errors. -/
def buildResponse (name : String) (result : GraphState) : ResearchResponse :=
  match result.research_findings with
  | some rf =>
    .success name result.status rf rf.ai_scorecard
      result.competitor_analysis result.thesis_pdf_path result.errors
  | none =>
    .failure name result.status "Failed to generate research findings"
      result.errors

/-- The handler's outcome mapping (api.py lines 83-274): a completed
workflow goes through `buildResponse`; an exception anywhere inside the
handler is caught by the `except` of line 257 and mapped to the
structured 500 exception response — the function is total, so the
caller never sees a bare exception. -/
def research_startup_handler (name : String)
    (workflow : Except String GraphState) : ResearchResponse :=
  match workflow with
  | .ok result => buildResponse name result
  | .error e => .exceptionFailure name e

/-! ## The deep-research collaborator (src/tools/tavily_search.py) -/

/-- The Tavily HTTP oracle: `createTask` is the parsed body of the
POST `/research` response (`.error` models both a raised exception and
the non-2xx paths `create_research_task` converts to failure dicts);
`pollStatus i` is the parsed body of the `i`-th GET `/research/{id}`
(`.error` models `get_research_status` reporting `success: False`). -/
structure TavilyEnv where
  createTask : Except String Json
  pollStatus : Nat → Except String Json

/-- The result dict of `run_deep_research`. -/
structure DeepResearchResult where
  success : Bool := false
  error : String := ""
  report : String := ""
  sources : List Json := []

/-- `max_retries` (tavily_search.py line 95). -/
def tavilyMaxRetries : Nat := 18

/-- The default `poll_interval` seconds (tavily_search.py line 76). -/
def tavilyDefaultPollInterval : Nat := 40

/-- The polling loop of `run_deep_research` (tavily_search.py lines
97-124), returning the result together with the number of polls issued.
A failed poll sleeps and continues; `completed`/`failed` terminate; fuel
exhaustion returns the `"Research timed out"` failure dict.  A non-dict
poll body makes `data.get("status")` raise (there is no `try` in
`run_deep_research`), modelled as `.error`. -/
def tavilyPollLoop (env : TavilyEnv) :
    Nat → Nat → Except String (DeepResearchResult × Nat)
  | 0, polls => .ok ({ success := false, error := "Research timed out" }, polls)
  | fuel + 1, polls =>
    match env.pollStatus polls with
    | .error _ => tavilyPollLoop env fuel (polls + 1)
    | .ok data => do
      let statusJ ← getFromObj data "status"
      let status : Option String := match statusJ with
        | .str s => some s
        | _ => none
      if status = some "completed" then do
        let content ← getFromObj data "content"
        let sources ← getFromObj data "sources"
        .ok ({ success := true,
               report := (match pyOr content (.str "") with
                 | .str s => s
                 | v => pyStr v),
               sources := (match sources with | .arr xs => xs | _ => []) },
             polls + 1)
      else if status = some "failed" then
        .ok ({ success := false, error := "Research task failed on server side" },
             polls + 1)
      else tavilyPollLoop env fuel (polls + 1)

/-- `run_deep_research` (tavily_search.py lines 76-124): submit the
task, check the `request_id`, then poll up to `max_retries` times;
`.error` is an exception escaping the method. -/
def run_deep_research (env : TavilyEnv) :
    Except String (DeepResearchResult × Nat) :=
  match env.createTask with
  | .error e => .ok ({ success := false, error := e }, 0)
  | .ok data => do
    let requestId ← getFromObj data "request_id"
    if requestId.truthy then
      tavilyPollLoop env tavilyMaxRetries 0
    else
      .ok ({ success := false, error := "No request_id returned" }, 0)

/-! ## Shared proof helpers and test fixtures -/

/-- Inversion of a successful `Except` bind. -/
theorem bind_ok {α β : Type} {x : Except String α} {f : α → Except String β}
    {b : β} (h : x >>= f = .ok b) : ∃ a, x = .ok a ∧ f a = .ok b := by
  cases x with
  | error e => simp [Bind.bind, Except.bind] at h
  | ok a => exact ⟨a, rfl, by simpa [Bind.bind, Except.bind] using h⟩

/-- The top-level keys of a JSON object. -/
def jsonTopKeys : Json → List String
  | .obj entries => entries.map (·.1)
  | _ => []

/-- `create_score_detail` always stores the weight its caller passes. -/
theorem create_score_detail_weight {d : Option Json} {w : Rat} {sd : ScoreDetail}
    (h : create_score_detail d w = .ok sd) : sd.weight = w := by
  cases d with
  | none => cases h; rfl
  | some v =>
    cases v with
    | obj entries =>
      unfold create_score_detail at h
      obtain ⟨a, _, h⟩ := bind_ok h
      obtain ⟨b, _, h⟩ := bind_ok h
      obtain ⟨c, _, h⟩ := bind_ok h
      obtain ⟨e, _, h⟩ := bind_ok h
      cases h; rfl
    | null => cases h; rfl
    | bool x => cases h; rfl
    | num x => cases h; rfl
    | str x => cases h; rfl
    | arr x => cases h; rfl

/-- An environment in which every collaborator call fails (no network,
no LLM, no filesystem). -/
def envFail : Env :=
  { jsonLoads := fun _ => none
    llmComplete := fun _ => .error "llm unavailable"
    llmCompetitors := fun _ => .error "llm unavailable"
    downloadPitchDeck := fun _ => false
    extractTextFromPath := fun _ => {}
    keyPhrases := fun _ => []
    scrape := fun _ => .error "scrape boom"
    serp := fun _ _ => .ok { success := false, error := "boom" }
    renderThesisPdf := fun _ _ _ => .error "render boom"
    createStartup := .error "api boom"
    createApplication := .error "api boom"
    uploadScore := .error "api boom"
    uploadDoc := .error "api boom"
    fileExists := fun _ => false }

/-- A minimal request: a name and nothing else. -/
def acmeState : GraphState := { startup_data := { name := "Acme" } }

/-- A scorecard response whose six category scores are 10 while the
LLM-reported overall score is 0. -/
def allTensScorecardInput : List (String × Json) :=
  [("founders_score", .obj [("score", .num 10)]),
   ("market_score", .obj [("score", .num 10)]),
   ("product_score", .obj [("score", .num 10)]),
   ("traction_score", .obj [("score", .num 10)]),
   ("team_score", .obj [("score", .num 10)]),
   ("financials_score", .obj [("score", .num 10)]),
   ("overall_score", .num 0)]

/-- A scorecard response carrying an arbitrary overall score and an
arbitrary recommendation string. -/
def passthroughScorecardInput (q : Rat) (r : String) : List (String × Json) :=
  [("founders_score", .obj [("score", .num 5)]),
   ("overall_score", .num q),
   ("investment_recommendation", .str r)]

/-- A scorecard response with no recommendation field at all. -/
def noRecommendationInput : List (String × Json) :=
  [("founders_score", .obj [("score", .num 5)]), ("overall_score", .num 9)]

/-! ## C5 -/

/-- C5: for every collaborator environment and every input state, the
structuring stage returns the unchanged record together with the update
`{"status": "error", "errors": ["LLM structuring error: ..."]}` — the
context f-string reads the undeclared attribute
`raw_gathering_data.tavily_report`, the resulting `AttributeError` is
caught by the stage handler, the update carries exactly one error
string, that string starts with `"LLM structuring error:"`, and the
update does not set `research_findings`. -/
theorem C5_llm_structure_unconditional_error (env : Env) (state : GraphState) :
    llm_structure_node env state =
      (state,
       { status := some "error",
         errors := some ["LLM structuring error: 'RawGatheringData' object has no attribute 'tavily_report'"] }) ∧
    (llm_structure_node env state).2.research_findings = none ∧
    ((llm_structure_node env state).2.errors.getD []).length = 1 ∧
    ((llm_structure_node env state).2.errors.getD []).all
      (fun e => charsLeadMatch "LLM structuring error:".toList e.toList) = true :=
  ⟨rfl, rfl, rfl, rfl⟩

/-! ## C2 -/

/-- C2 counterexample: a structuring-stage scorecard whose six category
scores are all 10 (weighted sum 10) while `overall_score` is the
LLM-reported 0 — the difference exceeds the claimed `1e-6` tolerance,
because the stage copies `overall_score` from the LLM output instead of
computing the weighted sum. -/
theorem C2_counterexample :
    ∃ sc, buildAIScorecard allTensScorecardInput = .ok sc ∧
      sixCategoryWeightedSum sc = 10 ∧ sc.overall_score = 0 ∧
      ¬ |sc.overall_score - sixCategoryWeightedSum sc| ≤ (1e-6 : Rat) := by
  refine ⟨_, rfl, ?_, rfl, ?_⟩ <;> norm_num [sixCategoryWeightedSum]

/-- C2 (amended): every scorecard the structuring stage produces has the
six category weights fixed at 0.25/0.20/0.15/0.20/0.10/0.10, summing to
exactly 1; `overall_score`, however, is copied verbatim from the LLM's
`overall_score` field (default 0.0) and is not recomputed, so it need
not equal the weighted sum. -/
theorem C2_weights_fixed_sum_one (structured : List (String × Json))
    (sc : AIScorecard) (h : buildAIScorecard structured = .ok sc) :
    sc.founders_score.weight = 0.25 ∧ sc.market_score.weight = 0.20 ∧
    sc.product_score.weight = 0.15 ∧ sc.traction_score.weight = 0.20 ∧
    sc.team_score.weight = 0.10 ∧ sc.financials_score.weight = 0.10 ∧
    sc.founders_score.weight + sc.market_score.weight +
      sc.product_score.weight + sc.traction_score.weight +
      sc.team_score.weight + sc.financials_score.weight = 1 := by
  unfold buildAIScorecard at h
  obtain ⟨a1, h1, h⟩ := bind_ok h
  obtain ⟨a2, h2, h⟩ := bind_ok h
  obtain ⟨a3, h3, h⟩ := bind_ok h
  obtain ⟨a4, h4, h⟩ := bind_ok h
  obtain ⟨a5, h5, h⟩ := bind_ok h
  obtain ⟨a6, h6, h⟩ := bind_ok h
  obtain ⟨a7, h7, h⟩ := bind_ok h
  obtain ⟨a8, h8, h⟩ := bind_ok h
  obtain ⟨a9, h9, h⟩ := bind_ok h
  obtain ⟨a10, h10, h⟩ := bind_ok h
  obtain ⟨a11, h11, h⟩ := bind_ok h
  obtain ⟨a12, h12, h⟩ := bind_ok h
  cases h
  have w1 := create_score_detail_weight h1
  have w2 := create_score_detail_weight h2
  have w3 := create_score_detail_weight h3
  have w4 := create_score_detail_weight h4
  have w5 := create_score_detail_weight h5
  have w6 := create_score_detail_weight h6
  refine ⟨w1, w2, w3, w4, w5, w6, ?_⟩
  rw [w1, w2, w3, w4, w5, w6]
  norm_num

/-- Witness for C2: the weight property instantiated on a concrete
scorecard input. -/
theorem C2_weights_fixed_sum_one_witness :
    ∃ sc, buildAIScorecard allTensScorecardInput = .ok sc ∧
      (sc.founders_score.weight = 0.25 ∧ sc.market_score.weight = 0.20 ∧
       sc.product_score.weight = 0.15 ∧ sc.traction_score.weight = 0.20 ∧
       sc.team_score.weight = 0.10 ∧ sc.financials_score.weight = 0.10 ∧
       sc.founders_score.weight + sc.market_score.weight +
         sc.product_score.weight + sc.traction_score.weight +
         sc.team_score.weight + sc.financials_score.weight = 1) :=
  ⟨_, rfl, C2_weights_fixed_sum_one allTensScorecardInput _ rfl⟩

/-! ## C3 -/

/-- C3 counterexample: a structuring run whose LLM output reports
`overall_score = 8.0` with `investment_recommendation = "PASS"`
produces a scorecard recommending `PASS`, not the `STRONG_BUY` the
claimed band mapping requires — the stage stores the LLM's
recommendation string verbatim. -/
theorem C3_counterexample :
    ∃ sc, buildAIScorecard (passthroughScorecardInput 8 "PASS") = .ok sc ∧
      sc.overall_score = 8 ∧ sc.investment_recommendation = "PASS" ∧
      sc.investment_recommendation ≠ "STRONG_BUY" := by
  exact ⟨_, rfl, rfl, rfl, by decide⟩

/-- C3 (amended): the recommendation bands (inclusive on their lower
edges: 8.0 → STRONG_BUY, 6.5 → BUY, 5.0 → HOLD, 4.9 → PASS) hold of the
band function the *prompt* states, but the stage itself stores the
LLM-returned recommendation string unchanged (whatever the overall
score is), defaulting to `"HOLD"` when the field is absent. -/
theorem C3_recommendation_passthrough :
    promptRecommendationBand 8 = "STRONG_BUY" ∧
    promptRecommendationBand 6.5 = "BUY" ∧
    promptRecommendationBand 5 = "HOLD" ∧
    promptRecommendationBand 4.9 = "PASS" ∧
    (∀ (q : Rat) (r : String),
      ∃ sc, buildAIScorecard (passthroughScorecardInput q r) = .ok sc ∧
        sc.overall_score = q ∧ sc.investment_recommendation = r) ∧
    (∃ sc, buildAIScorecard noRecommendationInput = .ok sc ∧
      sc.investment_recommendation = "HOLD") := by
  refine ⟨?_, ?_, ?_, ?_, fun q r => ⟨_, rfl, rfl, rfl⟩, ⟨_, rfl, rfl⟩⟩ <;>
    norm_num [promptRecommendationBand]

/-! ## C4 -/

/-- A once-nested LLM response whose hoisted child `company_info` is
itself a dict with a section-like name. -/
def nestedCompanyInfoInput : Json :=
  .obj [("BASIC_INFORMATION",
         .obj [("company_info", .obj [("founded_year", .num 2020)])])]

/-- C4 counterexample: flattening the once-nested map
`{"BASIC_INFORMATION": {"company_info": {"founded_year": 2020}}}` once
hoists `company_info`, but flattening again hoists `founded_year` out of
it (the `company_info` key matches the `_INFO`/`COMPANY` section
heuristics), so flattening twice differs from flattening once. -/
theorem C4_counterexample :
    flatten_nested_json nestedCompanyInfoInput =
      .obj [("company_info", .obj [("founded_year", .num 2020)])] ∧
    flatten_nested_json (flatten_nested_json nestedCompanyInfoInput) =
      .obj [("founded_year", .num 2020)] ∧
    flatten_nested_json (flatten_nested_json nestedCompanyInfoInput) ≠
      flatten_nested_json nestedCompanyInfoInput := by
  refine ⟨rfl, rfl, fun h => ?_⟩
  have h1 : jsonTopKeys (flatten_nested_json (flatten_nested_json nestedCompanyInfoInput)) =
      ["founded_year"] := rfl
  rw [h] at h1
  have h2 : jsonTopKeys (flatten_nested_json nestedCompanyInfoInput) =
      ["company_info"] := rfl
  rw [h2] at h1
  exact absurd h1 (by decide)

/-- A non-section entry is processed by plain dict assignment. -/
theorem flattenStep_nonsection {acc : List (String × Json)} {k : String}
    {v : Json} (h : isSectionEntry k v = false) :
    flattenStep acc (k, v) = Json.dictSet acc k v := by
  cases v <;> simp_all [flattenStep, isSectionEntry]

/-- Dict assignment of a fresh key appends. -/
theorem dictSet_append {acc : List (String × Json)} {k : String} {v : Json}
    (h : acc.any (fun kv => kv.1 = k) = false) :
    Json.dictSet acc k v = acc ++ [(k, v)] := by
  simp [Json.dictSet, h]

/-- Folding `flattenStep` over section-free entries with fresh distinct
keys just appends them. -/
theorem foldl_flattenStep_flat (entries : List (String × Json)) :
    ∀ acc : List (String × Json),
    (∀ kv ∈ entries, isSectionEntry kv.1 kv.2 = false) →
    (∀ kv ∈ entries, acc.any (fun e => e.1 = kv.1) = false) →
    entries.Pairwise (fun a b => a.1 ≠ b.1) →
    entries.foldl flattenStep acc = acc ++ entries := by
  induction entries with
  | nil => intro acc _ _ _; simp
  | cons kv rest ih =>
    intro acc hflat hdisj hnodup
    have hstep : flattenStep acc kv = acc ++ [kv] := by
      rw [show kv = (kv.1, kv.2) from rfl,
          flattenStep_nonsection (hflat kv (by simp)),
          dictSet_append (hdisj kv (by simp))]
    rw [List.foldl_cons, hstep]
    rw [ih (acc ++ [kv])
      (fun x hx => hflat x (by simp [hx]))
      (fun x hx => by
        have h1 := hdisj x (by simp [hx])
        have h2 : kv.1 ≠ x.1 := (List.pairwise_cons.mp hnodup).1 x hx
        simp [List.any_append, h1]
        exact fun hEq => h2 hEq)
      (List.pairwise_cons.mp hnodup).2]
    simp

/-- C4 (amended): flattening a structured-data map in which no entry is
a section (no dict value under a section-like key, the code's own
criterion for nesting) returns the map unchanged, and flattening such a
map twice equals flattening it once.  (By the counterexample, idempotence
fails for once-nested maps whose sections contain dict children with
section-like names such as `company_info`.) -/
theorem C4_flatten_flat_identity (entries : List (String × Json))
    (hnodup : entries.Pairwise (fun a b => a.1 ≠ b.1))
    (hflat : ∀ kv ∈ entries, isSectionEntry kv.1 kv.2 = false) :
    flatten_nested_json (.obj entries) = .obj entries ∧
    flatten_nested_json (flatten_nested_json (.obj entries)) = .obj entries := by
  have h1 : flatten_nested_json (.obj entries) = .obj entries := by
    show Json.obj (entries.foldl flattenStep []) = .obj entries
    rw [foldl_flattenStep_flat entries [] hflat (fun kv _ => rfl) hnodup]
    simp
  exact ⟨h1, by rw [h1, h1]⟩

/-- Witness for C4: the identity instantiated on a concrete flat map. -/
theorem C4_flatten_flat_identity_witness :
    flatten_nested_json
        (.obj [("name", .str "Acme"), ("revenue_model", .str "SaaS")]) =
      .obj [("name", .str "Acme"), ("revenue_model", .str "SaaS")] ∧
    flatten_nested_json (flatten_nested_json
        (.obj [("name", .str "Acme"), ("revenue_model", .str "SaaS")])) =
      .obj [("name", .str "Acme"), ("revenue_model", .str "SaaS")] :=
  C4_flatten_flat_identity
    [("name", .str "Acme"), ("revenue_model", .str "SaaS")]
    (by decide) (by decide)

/-! ## C1 -/

/-- The structuring stage always writes a fresh singleton error list. -/
theorem runStep_llm_errors (env : Env) (s : GraphState) :
    (runStep env s llm_structure_node).errors =
      ["LLM structuring error: 'RawGatheringData' object has no attribute 'tavily_report'"] := rfl

/-- A successful competitor-stage body never carries errors. -/
theorem analyzeCompetitorsBody_ok_errors {env : Env} {s : GraphState}
    {u : NodeUpdate} (h : analyzeCompetitorsBody env s = .ok u) :
    u.errors = none := by
  unfold analyzeCompetitorsBody at h
  cases hrf : s.research_findings with
  | none => rw [hrf] at h; cases h; rfl
  | some rf =>
    rw [hrf] at h
    cases hrgd : s.raw_gathering_data with
    | some rgd =>
      rw [hrgd] at h
      simp [Bind.bind, Except.bind, tavilyReportAttr] at h
    | none =>
      rw [hrgd] at h
      obtain ⟨a, _, h⟩ := bind_ok h
      obtain ⟨b, _, h⟩ := bind_ok h
      obtain ⟨c, _, h⟩ := bind_ok h
      obtain ⟨d, _, h⟩ := bind_ok h
      cases h; rfl

/-- Node 5 preserves a singleton error list's length. -/
theorem runStep_analyze_len (env : Env) (s : GraphState)
    (h : s.errors.length = 1) :
    (runStep env s analyze_competitors_node).errors.length = 1 := by
  unfold runStep analyze_competitors_node
  cases hb : analyzeCompetitorsBody env s with
  | error e => simp [applyUpdate, hb]
  | ok u =>
    have hu := analyzeCompetitorsBody_ok_errors hb
    simp [applyUpdate, hb, hu, h]

/-- Node 6 preserves a singleton error list's length. -/
theorem runStep_thesis_len (env : Env) (s : GraphState)
    (h : s.errors.length = 1) :
    (runStep env s generate_investment_thesis_node).errors.length = 1 := by
  unfold runStep generate_investment_thesis_node
  cases hrf : s.research_findings with
  | none => simp [applyUpdate, hrf, h]
  | some rf =>
    cases hr : env.renderThesisPdf rf s.competitor_analysis s.startup_data with
    | ok p => simp [applyUpdate, hrf, hr, h]
    | error e => simp [applyUpdate, hrf, hr]

/-- A successful node-7 body carries no error or a singleton. -/
theorem startupCreationBody_ok_errors {env : Env} {rf : ResearchFindings}
    {s : GraphState} {u : NodeUpdate}
    (h : startupCreationBody env rf s = .ok u) :
    u.errors = none ∨ ∃ e, u.errors = some [e] := by
  unfold startupCreationBody at h
  obtain ⟨resp, _, h⟩ := bind_ok h
  split at h
  · obtain ⟨a, _, h⟩ := bind_ok h
    obtain ⟨b, _, h⟩ := bind_ok h
    cases h; exact Or.inl rfl
  · cases h; exact Or.inr ⟨_, rfl⟩

/-- Node 7 preserves a singleton error list's length. -/
theorem runStep_creation_len (env : Env) (s : GraphState)
    (h : s.errors.length = 1) :
    (runStep env s startup_creation_node).errors.length = 1 := by
  unfold runStep startup_creation_node
  cases hrf : s.research_findings with
  | none => simp [applyUpdate, hrf]
  | some rf =>
    cases hb : startupCreationBody env rf s with
    | error e => simp [applyUpdate, hrf, hb]
    | ok u =>
      rcases startupCreationBody_ok_errors hb with hu | ⟨e, hu⟩ <;>
        simp [applyUpdate, hrf, hb, hu, h]

/-- A successful node-8 body carries no error or a singleton. -/
theorem applicationCreationBody_ok_errors {env : Env} {u : NodeUpdate}
    (h : applicationCreationBody env = .ok u) :
    u.errors = none ∨ ∃ e, u.errors = some [e] := by
  unfold applicationCreationBody at h
  obtain ⟨resp, _, h⟩ := bind_ok h
  split at h
  · obtain ⟨a, _, h⟩ := bind_ok h
    obtain ⟨b, _, h⟩ := bind_ok h
    cases h; exact Or.inl rfl
  · cases h; exact Or.inr ⟨_, rfl⟩

/-- Node 8 preserves a singleton error list's length. -/
theorem runStep_appcreation_len (env : Env) (s : GraphState)
    (h : s.errors.length = 1) :
    (runStep env s startup_application_creation_node).errors.length = 1 := by
  unfold runStep startup_application_creation_node
  by_cases hid : strOptTruthy s.startup_id
  · simp only [hid]
    cases hb : applicationCreationBody env with
    | error e => simp [applyUpdate, hb]
    | ok u =>
      rcases applicationCreationBody_ok_errors hb with hu | ⟨e, hu⟩ <;>
        simp [applyUpdate, hb, hu, h]
  · simp [applyUpdate, hid]

/-- Node 9 preserves a singleton error list's length. -/
theorem runStep_upload_len (env : Env) (s : GraphState)
    (h : s.errors.length = 1) :
    (runStep env s upload_thesis_node).errors.length = 1 := by
  unfold runStep upload_thesis_node
  split
  · simp [applyUpdate, h]
  · split
    · simp [applyUpdate, h]
    · split
      · simp [applyUpdate, h]
      · cases hr : env.uploadScore with
        | error e => simp [applyUpdate, hr]
        | ok resp =>
          dsimp only
          split <;> simp [applyUpdate, h]

/-- Node 10 preserves a singleton error list's length. -/
theorem runStep_pitchup_len (env : Env) (s : GraphState)
    (h : s.errors.length = 1) :
    (runStep env s pitch_deck_upload_node).errors.length = 1 := by
  unfold runStep pitch_deck_upload_node
  split
  · simp [applyUpdate, h]
  · split
    · simp [applyUpdate, h]
    · split
      · simp [applyUpdate, h]
      · cases hr : env.uploadDoc with
        | error e => simp [applyUpdate, hr]
        | ok resp =>
          dsimp only
          split <;> simp [applyUpdate, h]

/-- Every pipeline run (any collaborators, any initial record) ends with
exactly one error message: node 4 always writes a singleton error list,
and every later update either omits `errors` or replaces it with another
singleton — errors do not accumulate. -/
theorem pipeline_errors_length_one (env : Env) (s0 : GraphState) :
    (runPipeline env s0).errors.length = 1 := by
  have hrw : runPipeline env s0 =
      runStep env (runStep env (runStep env (runStep env (runStep env (runStep env
        (runStep env (runStep env (runStep env (runStep env s0
          parse_pitch_deck_node) scrape_website_node) search_startup_node)
          llm_structure_node) analyze_competitors_node)
          generate_investment_thesis_node) startup_creation_node)
          startup_application_creation_node) upload_thesis_node)
          pitch_deck_upload_node := rfl
  rw [hrw]
  apply runStep_pitchup_len
  apply runStep_upload_len
  apply runStep_appcreation_len
  apply runStep_creation_len
  apply runStep_thesis_len
  apply runStep_analyze_len
  simp [runStep_llm_errors]

/-- The record after nodes 1 and 2 of the `envFail` run on `acmeState`. -/
def acmeAfterTwo : GraphState :=
  runStep envFail (runStep envFail acmeState parse_pitch_deck_node)
    scrape_website_node

/-- C1 counterexample: in the concrete run where the search collaborator
fails, stage 3 reports the error `"Startup search failed: boom"`, yet
the final record's error list is the one later stage-8 skip message —
stage 3's message is gone (each stage's `errors` update replaced the
list), so error accumulation is not monotone and the final list does not
retain earlier messages verbatim. -/
theorem C1_counterexample :
    (search_startup_node envFail acmeAfterTwo).2.errors =
      some ["Startup search failed: boom"] ∧
    (runPipeline envFail acmeState).errors =
      ["No startup_id available for application creation"] ∧
    "Startup search failed: boom" ∉ (runPipeline envFail acmeState).errors := by
  exact ⟨by decide, by decide, by decide⟩

/-- C1 (amended): `errors` is a LangGraph `LastValue` channel, not an
append-only log — an update that carries an `errors` key *replaces* the
record's error list — and since every stage reports errors as a fresh
singleton (and stage 4 always reports one), every completed run ends
with exactly one error string: earlier stages' messages are lost, never
accumulated. -/
theorem C1_errors_channel_last_value :
    (∀ (s : GraphState) (u : NodeUpdate) (es : List String),
      (applyUpdate s { u with errors := some es }).errors = es) ∧
    (∀ (env : Env) (s0 : GraphState), (runPipeline env s0).errors.length = 1) :=
  ⟨fun _ _ _ => rfl, pipeline_errors_length_one⟩

/-! ## C6 -/

/-- The ten node names in wiring order. -/
def pipelineNodeNames : List String :=
  ["parse_pitch_deck", "scrape_website", "search_startup", "llm_structure",
   "analyze_competitors", "generate_investment_thesis", "startup_creation",
   "startup_application_creation", "upload_thesis", "pitch_deck_upload"]

/-- C6: the graph's edges are unconditional, so every run — whatever the
collaborators return and whatever errors earlier stages report — invokes
all ten stages in the fixed order; and a collaborator exception in an
expected failure mode (here the scraper raising, the handler cited by
the claim) is caught inside the stage and converted into the
`{"status": "error", "errors": [...]}` update instead of propagating. -/
theorem C6_pipeline_never_aborts (env : Env) (s0 : GraphState) :
    runPipelineTrace env s0 = pipelineNodeNames ∧
    (∀ (e : String) (s : GraphState),
      strOptTruthy s.startup_data.website = true →
      env.scrape (s.startup_data.website.getD "") = .error e →
      scrape_website_node env s =
        (s, { status := some "error",
              raw_gathering_data := some (some (s.raw_gathering_data.getD {})),
              errors := some ["Website scraping error: " ++ e] })) := by
  constructor
  · simp [runPipelineTrace, runPipelineAux, pipelineNodes, pipelineNodeNames]
  · intro e s hw hs
    simp [scrape_website_node, hw, hs]

/-- A request that also carries a website URL. -/
def websiteState : GraphState :=
  { startup_data := { name := "Acme", website := some "https://acme.example" } }

/-- Witness for C6: the failing-scraper conversion at a concrete
environment and state, plus the full trace of that run. -/
theorem C6_pipeline_never_aborts_witness :
    runPipelineTrace envFail websiteState = pipelineNodeNames ∧
    scrape_website_node envFail websiteState =
      (websiteState,
       { status := some "error",
         raw_gathering_data := some (some {}),
         errors := some ["Website scraping error: scrape boom"] }) :=
  ⟨(C6_pipeline_never_aborts envFail websiteState).1,
   (C6_pipeline_never_aborts envFail websiteState).2 "scrape boom"
     websiteState (by decide) rfl⟩

/-! ## C7 -/

/-- An environment where the pitch-deck download and extraction succeed. -/
def envDownloadOk : Env :=
  { envFail with
    downloadPitchDeck := fun _ => true
    extractTextFromPath := fun _ => { success := true, full_text := "DECK TEXT" } }

/-- A request carrying only a pitch-deck URL. -/
def urlOnlyState : GraphState :=
  { startup_data := { name := "Acme" },
    pitch_deck_url := some "https://drive.example/deck.pdf" }

/-- C7 counterexample: `parse_pitch_deck_node` is not pure — on the
URL path it assigns `state.pitch_deck_text` on the input record
(parse_pitch_deck.py line 75), so the record the engine holds after the
call differs from the one passed in. -/
theorem C7_counterexample :
    urlOnlyState.pitch_deck_text = none ∧
    (parse_pitch_deck_node envDownloadOk urlOnlyState).1.pitch_deck_text =
      some "DECK TEXT" ∧
    (parse_pitch_deck_node envDownloadOk urlOnlyState).1 ≠ urlOnlyState := by
  refine ⟨rfl, rfl, fun h => ?_⟩
  have h1 : (parse_pitch_deck_node envDownloadOk urlOnlyState).1.pitch_deck_text =
      some "DECK TEXT" := rfl
  rw [h] at h1
  exact absurd h1 (by decide)

/-- C7 (amended): stages 4-10 are pure (they return the input record
unchanged alongside their delta), and every stage short-circuits with
its skip status leaving the record untouched when its precondition is
unmet; but the three gathering stages are not pure in general — stage 1
writes `pitch_deck_text` and stages 2-3 write into the shared
`raw_gathering_data` object (see the counterexample). -/
theorem C7_stage_purity_and_skips (env : Env) (s : GraphState) :
    ((llm_structure_node env s).1 = s ∧
     (analyze_competitors_node env s).1 = s ∧
     (generate_investment_thesis_node env s).1 = s ∧
     (startup_creation_node env s).1 = s ∧
     (startup_application_creation_node env s).1 = s ∧
     (upload_thesis_node env s).1 = s ∧
     (pitch_deck_upload_node env s).1 = s) ∧
    (strOptTruthy s.pitch_deck_url = false → strOptTruthy s.pitch_deck_text = false →
      parse_pitch_deck_node env s = (s, noPitchDeckUpdate)) ∧
    (strOptTruthy s.startup_data.website = false →
      scrape_website_node env s =
        (s, { status := some "no_website",
              raw_gathering_data := some (some (s.raw_gathering_data.getD {})) })) ∧
    (s.startup_data.name = "" →
      search_startup_node env s =
        (s, { status := some "no_startup_name",
              raw_gathering_data := some (some (s.raw_gathering_data.getD {})) })) := by
  refine ⟨⟨?_, ?_, ?_, ?_, ?_, ?_, ?_⟩, ?_, ?_, ?_⟩
  · cases h : llmStructureBody env s <;> simp [llm_structure_node, h]
  · cases h : analyzeCompetitorsBody env s <;> simp [analyze_competitors_node, h]
  · unfold generate_investment_thesis_node
    cases hrf : s.research_findings with
    | none => rfl
    | some rf =>
      cases hr : env.renderThesisPdf rf s.competitor_analysis s.startup_data <;>
        simp [hr]
  · unfold startup_creation_node
    cases hrf : s.research_findings with
    | none => rfl
    | some rf => cases hb : startupCreationBody env rf s <;> simp [hb]
  · unfold startup_application_creation_node
    split
    · rfl
    · cases hb : applicationCreationBody env <;> simp [hb]
  · unfold upload_thesis_node
    split
    · rfl
    · split
      · rfl
      · split
        · rfl
        · cases hr : env.uploadScore with
          | error e => simp [hr]
          | ok resp => dsimp only; split <;> rfl
  · unfold pitch_deck_upload_node
    split
    · rfl
    · split
      · rfl
      · split
        · rfl
        · cases hr : env.uploadDoc with
          | error e => simp [hr]
          | ok resp => dsimp only; split <;> rfl
  · intro hu ht
    simp [parse_pitch_deck_node, hu, ht]
  · intro hw
    simp [scrape_website_node, hw]
  · intro hn
    simp [search_startup_node, hn]

/-- Witness for C7: purity of stage 6 and the three skip paths on the
all-empty request. -/
theorem C7_stage_purity_and_skips_witness :
    (generate_investment_thesis_node envFail acmeState).1 = acmeState ∧
    parse_pitch_deck_node envFail acmeState = (acmeState, noPitchDeckUpdate) ∧
    scrape_website_node envFail acmeState =
      (acmeState, { status := some "no_website",
                    raw_gathering_data := some (some {}) }) :=
  ⟨(C7_stage_purity_and_skips envFail acmeState).1.2.2.1,
   (C7_stage_purity_and_skips envFail acmeState).2.1 rfl rfl,
   (C7_stage_purity_and_skips envFail acmeState).2.2.1 rfl⟩

/-! ## C8 -/

/-- An LLM competitor response with seven competitors and the mandated
`validated_market_data` block. -/
def sevenCompetitorsInput : Json :=
  .obj
    [("competitors",
      .arr [.obj [("name", .str "C1")], .obj [("name", .str "C2")],
            .obj [("name", .str "C3")], .obj [("name", .str "C4")],
            .obj [("name", .str "C5")], .obj [("name", .str "C6")],
            .obj [("name", .str "C7")]]),
     ("market_overview", .str "Crowded market"),
     ("competitive_advantages", .str "Speed"),
     ("market_threats", .str "Incumbents"),
     ("validated_market_data",
      .obj [("tam", .num 1000000000), ("sam", .num 500000000),
            ("som", .num 50000000),
            ("explanation", .arr [.str "Bottom-up estimate"])])]

/-- C8: evaluating the competitor-stage construction at a response that
returns seven competitors and validated TAM/SAM/SOM: the `[:5]` slice
keeps exactly the first five profiles and the market overview is stored,
but the `tam`/`sam`/`som`/`market_data_explanation` keyword arguments
are dropped — `CompetitorAnalysis` (state.py lines 244-250) declares no
such fields, so pydantic's default `extra='ignore'` discards the
validated market figures the stage was meant to store. -/
theorem C8_competitor_analysis_eval :
    (∃ ca, buildCompetitorAnalysis "Acme" sevenCompetitorsInput = .ok ca ∧
       ca.competitors.length = 5 ∧
       ca.competitors.map (·.name) = ["C1", "C2", "C3", "C4", "C5"] ∧
       ca.market_overview = "Crowded market") ∧
    competitorAnalysisDroppedKwargs =
      ["tam", "sam", "som", "market_data_explanation"] := by
  exact ⟨⟨_, rfl, rfl, rfl, rfl⟩, by decide⟩

/-! ## C9 -/

/-- C9 counterexample: the search stage's collaborator calls on a
well-formed request are exactly the SerpAPI search — it never invokes
the deep-research client, so there is no deep-research-then-fallback
relationship in the pipeline. -/
theorem C9_counterexample :
    search_startup_node_calls acmeState = ["SerpAPISearch.search_startup"] ∧
    "TavilySearch.run_deep_research" ∉ search_startup_node_calls acmeState := by
  exact ⟨rfl, by decide⟩

/-- A poll outcome that neither completes nor fails the job (and does
not make the unguarded `data.get` raise). -/
def pollNonTerminal (env : TavilyEnv) (i : Nat) : Prop :=
  match env.pollStatus i with
  | .error _ => True
  | .ok (.obj entries) =>
    match Json.getD entries "status" .null with
    | .str st => st ≠ "completed" ∧ st ≠ "failed"
    | _ => True
  | .ok _ => False

/-- The polling loop issues at most `fuel` further polls. -/
theorem tavilyPollLoop_bound (env : TavilyEnv) :
    ∀ (fuel polls : Nat) {r : DeepResearchResult} {p : Nat},
    tavilyPollLoop env fuel polls = .ok (r, p) → p ≤ polls + fuel := by
  intro fuel
  induction fuel with
  | zero => intro polls r p h; cases h; simp
  | succ n ih =>
    intro polls r p h
    unfold tavilyPollLoop at h
    cases hp : env.pollStatus polls with
    | error e =>
      rw [hp] at h
      have := ih (polls + 1) h
      omega
    | ok data =>
      rw [hp] at h
      cases data with
      | obj entries =>
        simp only [getFromObj, Bind.bind, Except.bind] at h
        split at h
        · cases h; omega
        · split at h
          · cases h; omega
          · have := ih (polls + 1) h
            omega
      | null => simp [getFromObj, Bind.bind, Except.bind] at h
      | bool b => simp [getFromObj, Bind.bind, Except.bind] at h
      | num q => simp [getFromObj, Bind.bind, Except.bind] at h
      | str s => simp [getFromObj, Bind.bind, Except.bind] at h
      | arr xs => simp [getFromObj, Bind.bind, Except.bind] at h

/-- If no poll terminates the job, the loop consumes all its fuel and
returns the timeout-failure value. -/
theorem tavilyPollLoop_timeout (env : TavilyEnv)
    (hnt : ∀ i, pollNonTerminal env i) :
    ∀ (fuel polls : Nat),
    tavilyPollLoop env fuel polls =
      .ok ({ success := false, error := "Research timed out" }, polls + fuel) := by
  intro fuel
  induction fuel with
  | zero => intro polls; simp [tavilyPollLoop]
  | succ n ih =>
    intro polls
    have hstep : polls + (n + 1) = (polls + 1) + n := by omega
    rw [hstep]
    unfold tavilyPollLoop
    have h := hnt polls
    unfold pollNonTerminal at h
    cases hp : env.pollStatus polls with
    | error e => exact ih (polls + 1)
    | ok data =>
      rw [hp] at h
      cases data with
      | obj entries =>
        simp only [getFromObj, Bind.bind, Except.bind]
        cases hst : Json.getD entries "status" .null with
        | str st =>
          have h2 : st ≠ "completed" ∧ st ≠ "failed" := by
            have h3 : (match Json.getD entries "status" Json.null with
                       | Json.str st => st ≠ "completed" ∧ st ≠ "failed"
                       | _ => True) := h
            rw [hst] at h3
            exact h3
          simp only [hst]
          rw [if_neg (by simp [h2.1]), if_neg (by simp [h2.2])]
          exact ih (polls + 1)
        | null => simp only [hst]; exact ih (polls + 1)
        | bool b => simp only [hst]; exact ih (polls + 1)
        | num q => simp only [hst]; exact ih (polls + 1)
        | arr xs => simp only [hst]; exact ih (polls + 1)
        | obj o => simp only [hst]; exact ih (polls + 1)
      | null => exact absurd h (by simp)
      | bool b => exact absurd h (by simp)
      | num q => exact absurd h (by simp)
      | str st => exact absurd h (by simp)
      | arr xs => exact absurd h (by simp)

/-- C9 (amended): the deep-research collaborator polls on the fixed
default 40-second interval at most 18 times and reports the timeout as
a failure *value* (`{"success": False, "error": "Research timed out"}`)
rather than raising; but no pipeline stage invokes it — the search stage
calls the SerpAPI collaborator unconditionally, so there is no
deep-research-primary/SerpAPI-fallback relationship. -/
theorem C9_deep_research_bounded_polling :
    tavilyMaxRetries = 18 ∧ tavilyDefaultPollInterval = 40 ∧
    (∀ (env : TavilyEnv) (r : DeepResearchResult) (p : Nat),
      run_deep_research env = .ok (r, p) → p ≤ 18) ∧
    (∀ (env : TavilyEnv) (entries : List (String × Json)),
      env.createTask = .ok (.obj entries) →
      (Json.getD entries "request_id" .null).truthy = true →
      (∀ i, pollNonTerminal env i) →
      run_deep_research env =
        .ok ({ success := false, error := "Research timed out" }, 18)) ∧
    (∀ s : GraphState,
      "TavilySearch.run_deep_research" ∉ search_startup_node_calls s) := by
  refine ⟨rfl, rfl, ?_, ?_, ?_⟩
  · intro env r p h
    unfold run_deep_research at h
    cases hc : env.createTask with
    | error e => rw [hc] at h; cases h; omega
    | ok data =>
      rw [hc] at h
      cases data with
      | obj entries =>
        simp only [getFromObj, Bind.bind, Except.bind] at h
        split at h
        · have := tavilyPollLoop_bound env tavilyMaxRetries 0 h
          simpa [tavilyMaxRetries] using this
        · cases h; omega
      | null => simp [getFromObj, Bind.bind, Except.bind] at h
      | bool b => simp [getFromObj, Bind.bind, Except.bind] at h
      | num q => simp [getFromObj, Bind.bind, Except.bind] at h
      | str st => simp [getFromObj, Bind.bind, Except.bind] at h
      | arr xs => simp [getFromObj, Bind.bind, Except.bind] at h
  · intro env entries hc htr hnt
    unfold run_deep_research
    rw [hc]
    simp only [getFromObj, Bind.bind, Except.bind]
    rw [if_pos htr]
    have := tavilyPollLoop_timeout env hnt tavilyMaxRetries 0
    simpa [tavilyMaxRetries] using this
  · intro s
    unfold search_startup_node_calls
    split <;> decide

/-- A Tavily oracle whose job never finishes. -/
def tavilyPendingEnv : TavilyEnv :=
  { createTask := .ok (.obj [("request_id", .str "rid")])
    pollStatus := fun _ => .ok (.obj [("status", .str "pending")]) }

/-- Witness for C9: the timeout behaviour and the poll bound at the
concrete never-finishing oracle. -/
theorem C9_deep_research_bounded_polling_witness :
    run_deep_research tavilyPendingEnv =
      .ok ({ success := false, error := "Research timed out" }, 18) ∧
    (18 : Nat) ≤ 18 := by
  have h := C9_deep_research_bounded_polling.2.2.2.1 tavilyPendingEnv
    [("request_id", .str "rid")] rfl (by decide)
    (fun i => by constructor <;> decide)
  exact ⟨h, C9_deep_research_bounded_polling.2.2.1 tavilyPendingEnv _ 18 h⟩

/-! ## C10 -/

/-- C10: the handler's response is the success shape exactly when the
final record carries structured research findings; the success shape
carries the findings, scorecard, competitor analysis, report path and
error list of the record; the failure shape carries the fixed message
plus the accumulated errors; a workflow exception still yields a
structured 500 `"error"` response — the handler is a total function
into structured responses, never a bare exception. -/
theorem C10_response_classification :
    (∀ (name : String) (g : GraphState),
      (buildResponse name g).isSuccess = g.research_findings.isSome) ∧
    (∀ (name : String) (g : GraphState) (rf : ResearchFindings),
      g.research_findings = some rf →
      buildResponse name g =
        .success name g.status rf rf.ai_scorecard g.competitor_analysis
          g.thesis_pdf_path g.errors) ∧
    (∀ (name : String) (g : GraphState),
      g.research_findings = none →
      buildResponse name g =
        .failure name g.status "Failed to generate research findings" g.errors) ∧
    (∀ (name e : String),
      research_startup_handler name (.error e) = .exceptionFailure name e ∧
      (research_startup_handler name (.error e)).httpStatus = 500 ∧
      (research_startup_handler name (.error e)).statusField = "error") ∧
    (∀ (name : String) (g : GraphState),
      research_startup_handler name (.ok g) = buildResponse name g ∧
      (buildResponse name g).httpStatus =
        (if g.research_findings.isSome then 200 else 500)) := by
  refine ⟨?_, ?_, ?_, ?_, ?_⟩
  · intro name g
    cases h : g.research_findings <;>
      simp [buildResponse, h, ResearchResponse.isSuccess]
  · intro name g rf h
    simp [buildResponse, h]
  · intro name g h
    simp [buildResponse, h]
  · intro name e
    exact ⟨rfl, rfl, rfl⟩
  · intro name g
    refine ⟨rfl, ?_⟩
    cases h : g.research_findings <;>
      simp [buildResponse, h, ResearchResponse.httpStatus]

/-- Witness for C10: classification of the all-empty run's final record
(no findings → the 500 failure response). -/
theorem C10_response_classification_witness :
    buildResponse "Acme" acmeState =
      .failure "Acme" "initialized" "Failed to generate research findings" [] ∧
    (buildResponse "Acme" acmeState).isSuccess = false :=
  ⟨C10_response_classification.2.2.1 "Acme" acmeState rfl,
   by rw [C10_response_classification.1 "Acme" acmeState]; rfl⟩

end Startup
